import Mathlib

/-!
Shallow embedding of the MJX sensor-evaluation layer
(`mujoco/mjx/_src/sensor.py`): the three stage functions `sensor_pos`,
`sensor_vel`, `sensor_acc`, their per-type kernels, and the scatter write
into `Data.sensordata`.  Float arithmetic is idealised as exact rational
arithmetic; the external collaborators (ray casting, `tan`, `sqrt`, the
float constant `pi`) are passed in as a `Prims` record of functions.
-/

/-- Numeric floor constant `mujoco.mjMINVAL = 1e-15`. -/
def mjMINVAL : ℚ := 1 / 1000000000000000

/-- A 3-vector of rationals (one row of an `(n, 3)` numpy array). -/
structure Vec3 where
  x : ℚ
  y : ℚ
  z : ℚ
deriving DecidableEq

instance : Inhabited Vec3 := ⟨⟨0, 0, 0⟩⟩

/-- Component-wise difference of 3-vectors. -/
def Vec3.sub (a b : Vec3) : Vec3 := ⟨a.x - b.x, a.y - b.y, a.z - b.z⟩

/-- A homogeneous 4-vector. -/
structure Vec4 where
  x : ℚ
  y : ℚ
  z : ℚ
  w : ℚ
deriving DecidableEq

/-- A 3 by 3 matrix, stored as rows (one entry of an `(n, 3, 3)` array). -/
structure Mat3 where
  r0 : Vec3
  r1 : Vec3
  r2 : Vec3
deriving DecidableEq

/-- The 3 by 3 identity matrix (`np.eye(3)`). -/
def Mat3.id : Mat3 := ⟨⟨1, 0, 0⟩, ⟨0, 1, 0⟩, ⟨0, 0, 1⟩⟩

instance : Inhabited Mat3 := ⟨Mat3.id⟩

/-- Matrix transpose. -/
def Mat3.transpose (m : Mat3) : Mat3 :=
  ⟨⟨m.r0.x, m.r1.x, m.r2.x⟩, ⟨m.r0.y, m.r1.y, m.r2.y⟩, ⟨m.r0.z, m.r1.z, m.r2.z⟩⟩

/-- Dot product on 3-vectors. -/
def Vec3.dot (a b : Vec3) : ℚ := a.x * b.x + a.y * b.y + a.z * b.z

/-- Matrix-vector product (`mat @ vec`). -/
def Mat3.mulVec (m : Mat3) (v : Vec3) : Vec3 := ⟨m.r0.dot v, m.r1.dot v, m.r2.dot v⟩

/-- Column `k` of a matrix (`xmat[:, k]`); columns 0, 1, 2 are x, y, z axes. -/
def Mat3.col (m : Mat3) (k : Fin 3) : Vec3 :=
  match k with
  | 0 => ⟨m.r0.x, m.r1.x, m.r2.x⟩
  | 1 => ⟨m.r0.y, m.r1.y, m.r2.y⟩
  | 2 => ⟨m.r0.z, m.r1.z, m.r2.z⟩

/-- Dot product on homogeneous 4-vectors. -/
def Vec4.dot (a b : Vec4) : ℚ := a.x * b.x + a.y * b.y + a.z * b.z + a.w * b.w

/-- A 4 by 4 matrix stored as rows. -/
structure Mat4 where
  r0 : Vec4
  r1 : Vec4
  r2 : Vec4
  r3 : Vec4

/-- A 3 by 4 matrix stored as rows. -/
structure Mat34 where
  r0 : Vec4
  r1 : Vec4
  r2 : Vec4

/-- `Mat4` applied to a homogeneous vector. -/
def Mat4.mulVec (m : Mat4) (v : Vec4) : Vec4 :=
  ⟨m.r0.dot v, m.r1.dot v, m.r2.dot v, m.r3.dot v⟩

/-- `Mat34` applied to a homogeneous vector, producing a 3-vector. -/
def Mat34.mulVec (m : Mat34) (v : Vec4) : Vec3 :=
  ⟨m.r0.dot v, m.r1.dot v, m.r2.dot v⟩

/-- Column `k` (0..3) of a `Mat4`. -/
def Mat4.col (m : Mat4) (k : Fin 4) : Vec4 :=
  match k with
  | 0 => ⟨m.r0.x, m.r1.x, m.r2.x, m.r3.x⟩
  | 1 => ⟨m.r0.y, m.r1.y, m.r2.y, m.r3.y⟩
  | 2 => ⟨m.r0.z, m.r1.z, m.r2.z, m.r3.z⟩
  | 3 => ⟨m.r0.w, m.r1.w, m.r2.w, m.r3.w⟩

/-- Product of a 3 by 4 and a 4 by 4 matrix (`A @ B`). -/
def Mat34.mulMat4 (a : Mat34) (b : Mat4) : Mat34 :=
  ⟨⟨a.r0.dot (b.col 0), a.r0.dot (b.col 1), a.r0.dot (b.col 2), a.r0.dot (b.col 3)⟩,
   ⟨a.r1.dot (b.col 0), a.r1.dot (b.col 1), a.r1.dot (b.col 2), a.r1.dot (b.col 3)⟩,
   ⟨a.r2.dot (b.col 0), a.r2.dot (b.col 1), a.r2.dot (b.col 2), a.r2.dot (b.col 3)⟩⟩

/-- Column `k` (0..3) of a `Mat34`. -/
def Mat34.col (m : Mat34) (k : Fin 4) : Vec3 :=
  match k with
  | 0 => ⟨m.r0.x, m.r1.x, m.r2.x⟩
  | 1 => ⟨m.r0.y, m.r1.y, m.r2.y⟩
  | 2 => ⟨m.r0.z, m.r1.z, m.r2.z⟩
  | 3 => ⟨m.r0.w, m.r1.w, m.r2.w⟩

/-- Product of a 3 by 3 and a 3 by 4 matrix (`A @ B`). -/
def Mat3.mulMat34 (a : Mat3) (b : Mat34) : Mat34 :=
  ⟨⟨a.r0.dot (b.col 0), a.r0.dot (b.col 1), a.r0.dot (b.col 2), a.r0.dot (b.col 3)⟩,
   ⟨a.r1.dot (b.col 0), a.r1.dot (b.col 1), a.r1.dot (b.col 2), a.r1.dot (b.col 3)⟩,
   ⟨a.r2.dot (b.col 0), a.r2.dot (b.col 1), a.r2.dot (b.col 2), a.r2.dot (b.col 3)⟩⟩

/-- A quaternion in MuJoCo layout `(w, x, y, z)`. -/
structure Quat where
  w : ℚ
  x : ℚ
  y : ℚ
  z : ℚ
deriving DecidableEq

instance : Inhabited Quat := ⟨⟨1, 0, 0, 0⟩⟩

/-- Modelled from the spec: the quaternion product primitive
(`mujoco.mjx._src.math.quat_mul`, a "Primitive Math" collaborator whose
source is not under `src/`); the standard Hamilton product in
`(w, x, y, z)` layout. -/
def quat_mul (u v : Quat) : Quat :=
  ⟨u.w * v.w - u.x * v.x - u.y * v.y - u.z * v.z,
   u.w * v.x + u.x * v.w + u.y * v.z - u.z * v.y,
   u.w * v.y - u.x * v.z + u.y * v.w + u.z * v.x,
   u.w * v.z + u.x * v.y - u.y * v.x + u.z * v.w⟩

/-- Modelled from the spec: the quaternion inverse primitive
(`mujoco.mjx._src.math.quat_inv`, a "Primitive Math" collaborator whose
source is not under `src/`); the conjugate, which inverts unit quaternions. -/
def quat_inv (q : Quat) : Quat := ⟨q.w, -q.x, -q.y, -q.z⟩

/-- Product of two 3 by 3 matrices (`A @ B`). -/
def Mat3.mulMat (a b : Mat3) : Mat3 :=
  ⟨⟨a.r0.dot (b.col 0), a.r0.dot (b.col 1), a.r0.dot (b.col 2)⟩,
   ⟨a.r1.dot (b.col 0), a.r1.dot (b.col 1), a.r1.dot (b.col 2)⟩,
   ⟨a.r2.dot (b.col 0), a.r2.dot (b.col 1), a.r2.dot (b.col 2)⟩⟩

/-- An element gathered from one of the per-object arrays of the
`objtype_data` dict.  Numpy arrays are untyped, and the dict's `UNKNOWN`
entry stores its two arrays in the opposite order of every other entry, so a
gathered element is either a 3-vector (a row of an `(n, 3)` array) or a 3 by
3 matrix (an element of an `(n, 3, 3)` array). -/
inductive NpVal where
  | vec : Vec3 → NpVal
  | mat : Mat3 → NpVal
deriving DecidableEq

instance : Inhabited NpVal := ⟨NpVal.vec default⟩

/-- Numpy transpose `.T`: the identity on a 1-D array, the matrix transpose
on a 2-D array. -/
def npT : NpVal → NpVal
  | NpVal.vec v => NpVal.vec v
  | NpVal.mat a => NpVal.mat a.transpose

/-- Numpy subtraction with broadcasting: a `(3,)` operand against a `(3, 3)`
operand is broadcast across the rows. -/
def npSub : NpVal → NpVal → NpVal
  | NpVal.vec a, NpVal.vec b => NpVal.vec (a.sub b)
  | NpVal.vec a, NpVal.mat b => NpVal.mat ⟨a.sub b.r0, a.sub b.r1, a.sub b.r2⟩
  | NpVal.mat a, NpVal.vec b => NpVal.mat ⟨a.r0.sub b, a.r1.sub b, a.r2.sub b⟩
  | NpVal.mat a, NpVal.mat b => NpVal.mat ⟨a.r0.sub b.r0, a.r1.sub b.r1, a.r2.sub b.r2⟩

/-- Numpy `@`: matrix-matrix, matrix-vector, and (row) vector-matrix
products.  A 1-D `@` 1-D product is the scalar dot product; in the kernels
below it only ever feeds a `jp.where` whose other branch is 3-wide, which
broadcasts the scalar back to 3 entries, so it is represented here as the
replicated vector. -/
def npMatmul : NpVal → NpVal → NpVal
  | NpVal.mat a, NpVal.vec b => NpVal.vec (a.mulVec b)
  | NpVal.mat a, NpVal.mat b => NpVal.mat (a.mulMat b)
  | NpVal.vec a, NpVal.mat b => NpVal.vec (b.transpose.mulVec a)
  | NpVal.vec a, NpVal.vec b => NpVal.vec ⟨a.dot b, a.dot b, a.dot b⟩

/-- Flattening (`reshape(-1)`) of a gathered element. -/
def NpVal.flatten : NpVal → List ℚ
  | NpVal.vec v => [v.x, v.y, v.z]
  | NpVal.mat a =>
      [a.r0.x, a.r0.y, a.r0.z, a.r1.x, a.r1.y, a.r1.z, a.r2.x, a.r2.y, a.r2.z]

/-- The (address, value) pairs of one frame sensor: the 3 expanded addresses
`adr, adr+1, adr+2` zipped against the flattened kernel output.  When the
output is a 3 by 3 matrix (an `UNKNOWN`-typed object, reachable only through
the dict's swapped world entry) the source's final scatter raises a shape
error (9 flattened values against 3 addresses); the embedding's zip instead
truncates, which keeps the written addresses faithful. -/
def npWrites (a : Nat) (v : NpVal) : List (Nat × ℚ) :=
  List.zip [a, a + 1, a + 2] v.flatten

/-- Sensor type tags (`mujoco.mjx._src.types.SensorType` together with tags
that exist in `mjtSensor` but are not handled by this layer, e.g. `TOUCH`). -/
inductive SensorType where
  | MAGNETOMETER
  | CAMPROJECTION
  | RANGEFINDER
  | JOINTPOS
  | ACTUATORPOS
  | BALLQUAT
  | FRAMEPOS
  | FRAMEXAXIS
  | FRAMEYAXIS
  | FRAMEZAXIS
  | FRAMEQUAT
  | SUBTREECOM
  | CLOCK
  | JOINTVEL
  | ACTUATORVEL
  | BALLANGVEL
  | ACTUATORFRC
  | JOINTACTFRC
  | TOUCH
  | ACCELEROMETER
  | VELOCIMETER
  | GYRO
  | FORCE
  | TORQUE
deriving DecidableEq, Inhabited

/-- Object type tags (`mujoco.mjx._src.types.ObjType`). -/
inductive ObjType where
  | UNKNOWN
  | BODY
  | XBODY
  | GEOM
  | SITE
  | CAMERA
deriving DecidableEq, Inhabited

/-- Computation stages (`mujoco.mjtStage`): position, velocity, acceleration. -/
inductive Stage where
  | POS
  | VEL
  | ACC
deriving DecidableEq, Inhabited

/-- Bit for the global sensor disable flag (`mjtDisableBit.mjDSBL_SENSOR`). -/
def mjDSBL_SENSOR : Nat := 4096

/-- The slice of `Model.opt` read by this layer: global disable flags and the
global magnetic field vector. -/
structure Opt where
  disableflags : Nat
  magnetic : Vec3

/-- The static model arrays read by the sensor layer (per-sensor descriptor
arrays plus the per-object static configuration they dereference). -/
structure Model where
  opt : Opt
  sensor_type : List SensorType := []
  sensor_objtype : List ObjType := []
  sensor_objid : List Nat := []
  sensor_reftype : List ObjType := []
  sensor_refid : List Int := []
  sensor_adr : List Nat := []
  sensor_needstage : List Stage := []
  jnt_qposadr : List Nat := []
  jnt_dofadr : List Nat := []
  site_bodyid : List Nat := []
  geom_bodyid : List Nat := []
  cam_bodyid : List Nat := []
  body_iquat : List Quat := []
  geom_quat : List Quat := []
  site_quat : List Quat := []
  cam_quat : List Quat := []
  cam_fovy : List ℚ := []
  cam_resolution : List (ℚ × ℚ) := []
  cam_sensorsize : List (ℚ × ℚ) := []
  cam_intrinsic : List (ℚ × ℚ) := []

/-- The per-step state read and written by the sensor layer. -/
structure Data where
  time : ℚ := 0
  qpos : List ℚ := []
  qvel : List ℚ := []
  actuator_length : List ℚ := []
  actuator_velocity : List ℚ := []
  actuator_force : List ℚ := []
  qfrc_actuator : List ℚ := []
  subtree_com : List Vec3 := []
  xpos : List Vec3 := []
  xmat : List Mat3 := []
  xipos : List Vec3 := []
  ximat : List Mat3 := []
  xquat : List Quat := []
  geom_xpos : List Vec3 := []
  geom_xmat : List Mat3 := []
  site_xpos : List Vec3 := []
  site_xmat : List Mat3 := []
  cam_xpos : List Vec3 := []
  cam_xmat : List Mat3 := []
  sensordata : List ℚ := []

/-- Number of sensors in the model. -/
def nsensor (m : Model) : Nat := m.sensor_type.length

/-- Per-sensor accessors (a row of the descriptor arrays). -/
def Model.stype (m : Model) (i : Nat) : SensorType := m.sensor_type.getD i default

/-- Object type of sensor `i`. -/
def Model.sobjtype (m : Model) (i : Nat) : ObjType := m.sensor_objtype.getD i default

/-- Object id of sensor `i`. -/
def Model.sobjid (m : Model) (i : Nat) : Nat := m.sensor_objid.getD i 0

/-- Reference object type of sensor `i`. -/
def Model.sreftype (m : Model) (i : Nat) : ObjType := m.sensor_reftype.getD i default

/-- Reference object id of sensor `i` (`-1` is the world / no-reference sentinel). -/
def Model.srefid (m : Model) (i : Nat) : Int := m.sensor_refid.getD i (-1)

/-- Output buffer base address of sensor `i`. -/
def Model.sadr (m : Model) (i : Nat) : Nat := m.sensor_adr.getD i 0

/-- Needed stage of sensor `i`. -/
def Model.sstage (m : Model) (i : Nat) : Stage := m.sensor_needstage.getD i default

/-- Numpy-style signed gather index: a negative index wraps from the end. -/
def wrapIdx (len : Nat) (i : Int) : Nat := (if i < 0 then (len : Int) + i else i).toNat

/-- Signed gather from a list of 3-vectors. -/
def getIV (xs : List Vec3) (i : Int) : Vec3 := xs.getD (wrapIdx xs.length i) default

/-- Signed gather from a list of matrices. -/
def getIM (xs : List Mat3) (i : Int) : Mat3 := xs.getD (wrapIdx xs.length i) default

/-- Signed gather from one of the untyped `objtype_data` arrays. -/
def getINp (xs : List NpVal) (i : Int) : NpVal := xs.getD (wrapIdx xs.length i) default

/-- Signed gather from a list of quaternions. -/
def getIQt (xs : List Quat) (i : Int) : Quat := xs.getD (wrapIdx xs.length i) default

/-- Signed gather from a list of rationals. -/
def getIR (xs : List ℚ) (i : Int) : ℚ := xs.getD (wrapIdx xs.length i) 0

/-- Signed gather from a list of rational pairs. -/
def getIP (xs : List (ℚ × ℚ)) (i : Int) : ℚ × ℚ := xs.getD (wrapIdx xs.length i) (0, 0)

/-- Signed gather from a list of naturals. -/
def getIN (xs : List Nat) (i : Int) : Nat := xs.getD (wrapIdx xs.length i) 0

/-- The external collaborators of the sensor layer, passed as functions:
`tan` and `sqrt` idealise the float primitives, `pi` the float constant
`jp.pi`, and `ray` the ray-casting engine `mujoco.mjx._src.ray.ray`
(arguments: model, data, ray origin, ray direction, excluded body id;
result: nearest-hit distance and hit geom id). -/
structure Prims where
  tan : ℚ → ℚ
  sqrt : ℚ → ℚ
  pi : ℚ
  ray : Model → Data → Vec3 → Vec3 → Nat → (ℚ × Int)

/-- The ray collaborator reads geometry only: it does not depend on the
sensor output buffer of the `Data` it receives. -/
def RayPure (p : Prims) : Prop :=
  ∀ (m : Model) (d : Data) (s : List ℚ) (pnt vec : Vec3) (bid : Nat),
    p.ray m { d with sensordata := s } pnt vec bid = p.ray m d pnt vec bid

/-- Position and orientation arrays by object type (`objtype_data` in
`sensor_pos`).  Every entry pairs (positions, orientation matrices) EXCEPT
the `UNKNOWN` (world) entry, which the source stores in the opposite order,
`(np.expand_dims(np.eye(3), axis=0), np.zeros((1, 3)))` — first the identity
matrix array, then the zero position — and this embedding reproduces that
swap faithfully. -/
def objtype_data (d : Data) : ObjType → (List NpVal × List NpVal)
  | ObjType.UNKNOWN => ([NpVal.mat Mat3.id], [NpVal.vec ⟨0, 0, 0⟩])
  | ObjType.BODY => (d.xipos.map NpVal.vec, d.ximat.map NpVal.mat)
  | ObjType.XBODY => (d.xpos.map NpVal.vec, d.xmat.map NpVal.mat)
  | ObjType.GEOM => (d.geom_xpos.map NpVal.vec, d.geom_xmat.map NpVal.mat)
  | ObjType.SITE => (d.site_xpos.map NpVal.vec, d.site_xmat.map NpVal.mat)
  | ObjType.CAMERA => (d.cam_xpos.map NpVal.vec, d.cam_xmat.map NpVal.mat)

/-- Width (number of output slots) of each sensor type, fixed by the type. -/
def sensorWidth : SensorType → Nat
  | SensorType.MAGNETOMETER => 3
  | SensorType.CAMPROJECTION => 2
  | SensorType.RANGEFINDER => 1
  | SensorType.JOINTPOS => 1
  | SensorType.ACTUATORPOS => 1
  | SensorType.BALLQUAT => 4
  | SensorType.FRAMEPOS => 3
  | SensorType.FRAMEXAXIS => 3
  | SensorType.FRAMEYAXIS => 3
  | SensorType.FRAMEZAXIS => 3
  | SensorType.FRAMEQUAT => 4
  | SensorType.SUBTREECOM => 3
  | SensorType.CLOCK => 1
  | SensorType.JOINTVEL => 1
  | SensorType.ACTUATORVEL => 1
  | SensorType.BALLANGVEL => 3
  | SensorType.ACTUATORFRC => 1
  | SensorType.JOINTACTFRC => 1
  | SensorType.TOUCH => 1
  | SensorType.ACCELEROMETER => 3
  | SensorType.VELOCIMETER => 3
  | SensorType.GYRO => 3
  | SensorType.FORCE => 3
  | SensorType.TORQUE => 3

/-- Expanded (address, value) pairs of a width-3 output at base address `a`
(`adr[:, None] + np.arange(3)[None]` zipped with the flattened values). -/
def vec3Writes (a : Nat) (v : Vec3) : List (Nat × ℚ) :=
  [(a, v.x), (a + 1, v.y), (a + 2, v.z)]

/-- Expanded (address, value) pairs of a width-4 quaternion output. -/
def quatWrites (a : Nat) (q : Quat) : List (Nat × ℚ) :=
  [(a, q.w), (a + 1, q.x), (a + 2, q.y), (a + 3, q.z)]

/-- Modelled from the spec: the vector normalisation primitive
(`mujoco.mjx._src.math.normalize`, a "Primitive Math" collaborator whose
source is not under `src/`), specialised to the 4 generalised-position
components of a ball joint: divide by the square root of the squared norm. -/
def normalize4 (p : Prims) (q : Quat) : Quat :=
  let n := p.sqrt (q.w * q.w + q.x * q.x + q.y * q.y + q.z * q.z)
  ⟨q.w / n, q.x / n, q.y / n, q.z / n⟩

/-- The frame-position kernel `_framepos` of `sensor_pos`: the raw gathered
position when the reference id is the sentinel `-1`, else
`xmat_ref.T @ (xpos - xpos_ref)` with numpy broadcast semantics — through
the swapped `UNKNOWN` dict entry the gathered reference "position" can be
the 3 by 3 identity and the reference "orientation" the zero vector, in
which case this computes the zero vector rather than the re-expressed
position. -/
def _framepos (xpos xpos_ref xmat_ref : NpVal) (refid : Int) : NpVal :=
  if refid = -1 then xpos else npMatmul (npT xmat_ref) (npSub xpos xpos_ref)

/-- Column `k` of a gathered orientation entry (`xmat[:, k]`).  On a 1-D
(vector) entry — reachable only for an `UNKNOWN`-typed object through the
dict's swapped world entry — the source's two-index access raises an
IndexError; the embedding returns the zero vector there (no claim touches
that value). -/
def npCol (k : Fin 3) : NpVal → NpVal
  | NpVal.mat a => NpVal.vec (a.col k)
  | NpVal.vec _ => NpVal.vec ⟨0, 0, 0⟩

/-- The frame-axis kernel `_frameaxis` of `sensor_pos` for axis column `k`:
the object's k-th frame axis, rotated into the reference frame unless the
reference id is the sentinel `-1` (numpy broadcast semantics as in
`_framepos`). -/
def _frameaxis (k : Fin 3) (xmat xmat_ref : NpVal) (refid : Int) : NpVal :=
  let axis := npCol k xmat
  if refid = -1 then axis else npMatmul (npT xmat_ref) axis

/-- The per-object-type orientation quaternion resolver `_quat` of
`sensor_pos` (the signed id matches the numpy gather, where `-1` wraps to the
last array element). -/
def _quat (m : Model) (d : Data) (otype : ObjType) (oid : Int) : Quat :=
  match otype with
  | ObjType.XBODY => getIQt d.xquat oid
  | ObjType.BODY => quat_mul (getIQt d.xquat oid) (getIQt m.body_iquat oid)
  | ObjType.GEOM =>
      quat_mul (getIQt d.xquat (getIN m.geom_bodyid oid : Int)) (getIQt m.geom_quat oid)
  | ObjType.SITE =>
      quat_mul (getIQt d.xquat (getIN m.site_bodyid oid : Int)) (getIQt m.site_quat oid)
  | ObjType.CAMERA =>
      quat_mul (getIQt d.xquat (getIN m.cam_bodyid oid : Int)) (getIQt m.cam_quat oid)
  | ObjType.UNKNOWN => ⟨1, 0, 0, 0⟩

/-- Focal lengths `(fx, fy)` of the camera-projection kernel: derived from
explicit intrinsics scaled by `resolution / (sensorsize + mjMINVAL)` when the
sensor size is nonzero (`focal_flag`), else from the vertical field of view. -/
def focalLengths (p : Prims) (res : ℚ × ℚ) (fovy : ℚ) (intrinsic sensorsize : ℚ × ℚ)
    (focal_flag : Bool) : ℚ × ℚ :=
  let f := 0.5 / p.tan (fovy * p.pi / 360) * res.2
  (if focal_flag then intrinsic.1 / (sensorsize.1 + mjMINVAL) * res.1 else f,
   if focal_flag then intrinsic.2 / (sensorsize.2 + mjMINVAL) * res.2 else f)

/-- Homogeneous translation `jp.eye(4).at[0:3, 3].set(-xpos)`. -/
def translationMat (xpos : Vec3) : Mat4 :=
  ⟨⟨1, 0, 0, -xpos.x⟩, ⟨0, 1, 0, -xpos.y⟩, ⟨0, 0, 1, -xpos.z⟩, ⟨0, 0, 0, 1⟩⟩

/-- Homogeneous rotation `jp.eye(4).at[:3, :3].set(xmat.T)`. -/
def rotationMat (xmat : Mat3) : Mat4 :=
  ⟨⟨xmat.transpose.r0.x, xmat.transpose.r0.y, xmat.transpose.r0.z, 0⟩,
   ⟨xmat.transpose.r1.x, xmat.transpose.r1.y, xmat.transpose.r1.z, 0⟩,
   ⟨xmat.transpose.r2.x, xmat.transpose.r2.y, xmat.transpose.r2.z, 0⟩,
   ⟨0, 0, 0, 1⟩⟩

/-- The 3 by 4 focal transformation matrix of the camera-projection kernel;
its first diagonal entry is the negated horizontal focal length. -/
def focalMatrix (fx fy : ℚ) : Mat34 :=
  ⟨⟨-fx, 0, 0, 0⟩, ⟨0, fy, 0, 0⟩, ⟨0, 0, 1, 0⟩⟩

/-- The 3 by 3 image matrix `jp.eye(3).at[:2, 2].set(res[0:2] / 2.0)`. -/
def imageMatrix (res : ℚ × ℚ) : Mat3 :=
  ⟨⟨1, 0, res.1 / 2⟩, ⟨0, 1, res.2 / 2⟩, ⟨0, 0, 1⟩⟩

/-- The divisor adjustment of `_cam_project`: when the third homogeneous
component is smaller than `mjMINVAL` in magnitude, pass it through
`jp.clip(denom, -mjMINVAL, mjMINVAL)` (i.e. `min (max denom (-mjMINVAL))
mjMINVAL`); otherwise use it unchanged. -/
def clampDenom (denom : ℚ) : ℚ :=
  if |denom| < mjMINVAL then min (max denom (-mjMINVAL)) mjMINVAL else denom

/-- The camera-projection kernel `_cam_project` of `sensor_pos`: assemble the
3 by 4 projection `image @ focal @ rotation @ translation`, apply it to the
homogeneous target position, and divide the first two components by the
(adjusted) third. -/
def _cam_project (p : Prims) (target_xpos xpos : Vec3) (xmat : Mat3) (res : ℚ × ℚ)
    (fovy : ℚ) (intrinsic sensorsize : ℚ × ℚ) (focal_flag : Bool) : ℚ × ℚ :=
  let fl := focalLengths p res fovy intrinsic sensorsize focal_flag
  let proj :=
    (((imageMatrix res).mulMat34 (focalMatrix fl.1 fl.2)).mulMat4
        (rotationMat xmat)).mulMat4 (translationMat xpos)
  let pos_hom : Vec4 := ⟨target_xpos.x, target_xpos.y, target_xpos.z, 1⟩
  let pixel_coord_hom := proj.mulVec pos_hom
  let denom := clampDenom pixel_coord_hom.z
  (pixel_coord_hom.x / denom, pixel_coord_hom.y / denom)

/-- Indices of all sensors with type `t` (`idx = m.sensor_type == sensor_type`,
note: not re-filtered by needed stage). -/
def typeIdx (m : Model) (t : SensorType) : List Nat :=
  (List.range (nsensor m)).filter (fun j => decide (m.stype j = t))

/-- The distinct sensor types among sensors needing stage `st`
(`set(m.sensor_type[stage])`). -/
def stageTypes (m : Model) (st : Stage) : List SensorType :=
  (((m.sensor_type.zip m.sensor_needstage).filter
      (fun pr => decide (pr.2 = st))).map Prod.fst).dedup

/-- Iterate a type group by the distinct values of `key` (the source's
`for v in set(keys): idxs = keys == v`), flattening the per-sensor pairs. -/
def groupedBy {α : Type} [DecidableEq α] (g : List Nat) (key : Nat → α)
    (f : Nat → List (Nat × ℚ)) : List (Nat × ℚ) :=
  ((g.map key).dedup).flatMap
    (fun kv => (g.filter (fun j => decide (key j = kv))).flatMap f)

/-- Magnetometer output: `xmat.T @ m.opt.magnetic` at the sensor's site. -/
def magPairs (m : Model) (d : Data) (j : Nat) : List (Nat × ℚ) :=
  vec3Writes (m.sadr j)
    ((d.site_xmat.getD (m.sobjid j) default).transpose.mulVec m.opt.magnetic)

/-- Camera-projection output: `_cam_project` of the target site against the
reference camera's state and intrinsics (gathered at the reference id). -/
def camprojPairs (p : Prims) (m : Model) (d : Data) (j : Nat) : List (Nat × ℚ) :=
  let rid := m.srefid j
  let sensorsize := getIP m.cam_sensorsize rid
  let intrinsic := getIP m.cam_intrinsic rid
  let fovy := getIR m.cam_fovy rid
  let res := getIP m.cam_resolution rid
  let focal_flag := decide (sensorsize.1 ≠ 0) && decide (sensorsize.2 ≠ 0)
  let s := _cam_project p (d.site_xpos.getD (m.sobjid j) default)
      (getIV d.cam_xpos rid) (getIM d.cam_xmat rid) res fovy intrinsic
      sensorsize focal_flag
  [(m.sadr j, s.1), (m.sadr j + 1, s.2)]

/-- Rangefinder output: ray cast from the site position along the third
column of the site orientation, excluding the owning body. -/
def rangefinderPairs (p : Prims) (m : Model) (d : Data) (j : Nat) : List (Nat × ℚ) :=
  let sid := m.site_bodyid.getD (m.sobjid j) 0
  [(m.sadr j,
    (p.ray m d (d.site_xpos.getD (m.sobjid j) default)
      ((d.site_xmat.getD (m.sobjid j) default).col 2) sid).1)]

/-- Joint-position output: `d.qpos[m.jnt_qposadr[objid]]`. -/
def jointposPairs (m : Model) (d : Data) (j : Nat) : List (Nat × ℚ) :=
  [(m.sadr j, d.qpos.getD (m.jnt_qposadr.getD (m.sobjid j) 0) 0)]

/-- Actuator-length output: `d.actuator_length[objid]`. -/
def actposPairs (m : Model) (d : Data) (j : Nat) : List (Nat × ℚ) :=
  [(m.sadr j, d.actuator_length.getD (m.sobjid j) 0)]

/-- Ball-joint quaternion output: the 4 generalised-position components at
the joint's position address, normalised. -/
def ballquatPairs (p : Prims) (m : Model) (d : Data) (j : Nat) : List (Nat × ℚ) :=
  let qadr := m.jnt_qposadr.getD (m.sobjid j) 0
  quatWrites (m.sadr j)
    (normalize4 p
      ⟨d.qpos.getD qadr 0, d.qpos.getD (qadr + 1) 0,
       d.qpos.getD (qadr + 2) 0, d.qpos.getD (qadr + 3) 0⟩)

/-- The frame-position value of sensor `j`: `_framepos` applied to the object
entry and the reference entries gathered from the object-type-selected
arrays of `objtype_data`. -/
def frameposValue (m : Model) (d : Data) (j : Nat) : NpVal :=
  _framepos ((objtype_data d (m.sobjtype j)).1.getD (m.sobjid j) default)
    (getINp (objtype_data d (m.sreftype j)).1 (m.srefid j))
    (getINp (objtype_data d (m.sreftype j)).2 (m.srefid j)) (m.srefid j)

/-- Frame-position output pairs of sensor `j`. -/
def frameposPairs (m : Model) (d : Data) (j : Nat) : List (Nat × ℚ) :=
  npWrites (m.sadr j) (frameposValue m d j)

/-- The frame-axis value of sensor `j` for axis column `k`. -/
def frameaxisValue (k : Fin 3) (m : Model) (d : Data) (j : Nat) : NpVal :=
  _frameaxis k ((objtype_data d (m.sobjtype j)).2.getD (m.sobjid j) default)
    (getINp (objtype_data d (m.sreftype j)).2 (m.srefid j)) (m.srefid j)

/-- Frame-axis output pairs of sensor `j`. -/
def frameaxisPairs (k : Fin 3) (m : Model) (d : Data) (j : Nat) : List (Nat × ℚ) :=
  npWrites (m.sadr j) (frameaxisValue k m d j)

/-- The frame-quaternion value of sensor `j`: the resolved object quaternion,
composed with the inverse of the resolved reference quaternion unless the
reference id is the sentinel `-1`. -/
def framequatValue (m : Model) (d : Data) (j : Nat) : Quat :=
  let q := _quat m d (m.sobjtype j) (m.sobjid j : Int)
  let r := _quat m d (m.sreftype j) (m.srefid j)
  if m.srefid j = -1 then q else quat_mul (quat_inv r) q

/-- Frame-quaternion output pairs of sensor `j`. -/
def framequatPairs (m : Model) (d : Data) (j : Nat) : List (Nat × ℚ) :=
  quatWrites (m.sadr j) (framequatValue m d j)

/-- Subtree center-of-mass output: `d.subtree_com[objid]`. -/
def subtreecomPairs (m : Model) (d : Data) (j : Nat) : List (Nat × ℚ) :=
  vec3Writes (m.sadr j) (d.subtree_com.getD (m.sobjid j) default)

/-- Clock output: the simulation time, identical for every instance. -/
def clockPairs (m : Model) (d : Data) (j : Nat) : List (Nat × ℚ) :=
  [(m.sadr j, d.time)]

/-- Joint-velocity output: `d.qvel[m.jnt_dofadr[objid]]`. -/
def jointvelPairs (m : Model) (d : Data) (j : Nat) : List (Nat × ℚ) :=
  [(m.sadr j, d.qvel.getD (m.jnt_dofadr.getD (m.sobjid j) 0) 0)]

/-- Actuator-velocity output: `d.actuator_velocity[objid]`. -/
def actvelPairs (m : Model) (d : Data) (j : Nat) : List (Nat × ℚ) :=
  [(m.sadr j, d.actuator_velocity.getD (m.sobjid j) 0)]

/-- Ball-joint angular-velocity output: the 3 generalised-velocity components
at the joint's velocity address. -/
def ballangvelPairs (m : Model) (d : Data) (j : Nat) : List (Nat × ℚ) :=
  let dadr := m.jnt_dofadr.getD (m.sobjid j) 0
  vec3Writes (m.sadr j)
    ⟨d.qvel.getD dadr 0, d.qvel.getD (dadr + 1) 0, d.qvel.getD (dadr + 2) 0⟩

/-- Actuator-force output: `d.actuator_force[objid]`. -/
def actfrcPairs (m : Model) (d : Data) (j : Nat) : List (Nat × ℚ) :=
  [(m.sadr j, d.actuator_force.getD (m.sobjid j) 0)]

/-- Joint actuator-force output: `d.qfrc_actuator[m.jnt_dofadr[objid]]`. -/
def jointactfrcPairs (m : Model) (d : Data) (j : Nat) : List (Nat × ℚ) :=
  [(m.sadr j, d.qfrc_actuator.getD (m.jnt_dofadr.getD (m.sobjid j) 0) 0)]

/-- The (address, value) pairs produced in the position stage by the type
group of `t` (the body of the `for sensor_type in set(...)` loop of
`sensor_pos`); an unsupported type contributes nothing (`continue`). -/
def posGroupWrites (p : Prims) (m : Model) (d : Data) (t : SensorType) :
    List (Nat × ℚ) :=
  let g := typeIdx m t
  match t with
  | SensorType.MAGNETOMETER => g.flatMap (magPairs m d)
  | SensorType.CAMPROJECTION => g.flatMap (camprojPairs p m d)
  | SensorType.RANGEFINDER =>
      groupedBy g (fun j => m.site_bodyid.getD (m.sobjid j) 0) (rangefinderPairs p m d)
  | SensorType.JOINTPOS => g.flatMap (jointposPairs m d)
  | SensorType.ACTUATORPOS => g.flatMap (actposPairs m d)
  | SensorType.BALLQUAT => g.flatMap (ballquatPairs p m d)
  | SensorType.FRAMEPOS =>
      groupedBy g (fun j => (m.sobjtype j, m.sreftype j)) (frameposPairs m d)
  | SensorType.FRAMEXAXIS =>
      groupedBy g (fun j => (m.sobjtype j, m.sreftype j)) (frameaxisPairs 0 m d)
  | SensorType.FRAMEYAXIS =>
      groupedBy g (fun j => (m.sobjtype j, m.sreftype j)) (frameaxisPairs 1 m d)
  | SensorType.FRAMEZAXIS =>
      groupedBy g (fun j => (m.sobjtype j, m.sreftype j)) (frameaxisPairs 2 m d)
  | SensorType.FRAMEQUAT =>
      groupedBy g (fun j => (m.sobjtype j, m.sreftype j)) (framequatPairs m d)
  | SensorType.SUBTREECOM => g.flatMap (subtreecomPairs m d)
  | SensorType.CLOCK => g.flatMap (clockPairs m d)
  | _ => []

/-- The (address, value) pairs a single sensor contributes in the position
stage when its type group is evaluated. -/
def sensorPairs (p : Prims) (m : Model) (d : Data) (j : Nat) : List (Nat × ℚ) :=
  match m.stype j with
  | SensorType.MAGNETOMETER => magPairs m d j
  | SensorType.CAMPROJECTION => camprojPairs p m d j
  | SensorType.RANGEFINDER => rangefinderPairs p m d j
  | SensorType.JOINTPOS => jointposPairs m d j
  | SensorType.ACTUATORPOS => actposPairs m d j
  | SensorType.BALLQUAT => ballquatPairs p m d j
  | SensorType.FRAMEPOS => frameposPairs m d j
  | SensorType.FRAMEXAXIS => frameaxisPairs 0 m d j
  | SensorType.FRAMEYAXIS => frameaxisPairs 1 m d j
  | SensorType.FRAMEZAXIS => frameaxisPairs 2 m d j
  | SensorType.FRAMEQUAT => framequatPairs m d j
  | SensorType.SUBTREECOM => subtreecomPairs m d j
  | SensorType.CLOCK => clockPairs m d j
  | _ => []

/-- All (address, value) pairs collected by the position stage. -/
def posWrites (p : Prims) (m : Model) (d : Data) : List (Nat × ℚ) :=
  (stageTypes m Stage.POS).flatMap (posGroupWrites p m d)

/-- The pairs of a velocity-stage type group. -/
def velGroupWrites (m : Model) (d : Data) (t : SensorType) : List (Nat × ℚ) :=
  let g := typeIdx m t
  match t with
  | SensorType.JOINTVEL => g.flatMap (jointvelPairs m d)
  | SensorType.ACTUATORVEL => g.flatMap (actvelPairs m d)
  | SensorType.BALLANGVEL => g.flatMap (ballangvelPairs m d)
  | _ => []

/-- The pairs a single sensor contributes in the velocity stage. -/
def velSensorPairs (m : Model) (d : Data) (j : Nat) : List (Nat × ℚ) :=
  match m.stype j with
  | SensorType.JOINTVEL => jointvelPairs m d j
  | SensorType.ACTUATORVEL => actvelPairs m d j
  | SensorType.BALLANGVEL => ballangvelPairs m d j
  | _ => []

/-- All (address, value) pairs collected by the velocity stage. -/
def velWrites (m : Model) (d : Data) : List (Nat × ℚ) :=
  (stageTypes m Stage.VEL).flatMap (velGroupWrites m d)

/-- The pairs of an acceleration-stage type group. -/
def accGroupWrites (m : Model) (d : Data) (t : SensorType) : List (Nat × ℚ) :=
  let g := typeIdx m t
  match t with
  | SensorType.ACTUATORFRC => g.flatMap (actfrcPairs m d)
  | SensorType.JOINTACTFRC => g.flatMap (jointactfrcPairs m d)
  | _ => []

/-- The pairs a single sensor contributes in the acceleration stage. -/
def accSensorPairs (m : Model) (d : Data) (j : Nat) : List (Nat × ℚ) :=
  match m.stype j with
  | SensorType.ACTUATORFRC => actfrcPairs m d j
  | SensorType.JOINTACTFRC => jointactfrcPairs m d j
  | _ => []

/-- All (address, value) pairs collected by the acceleration stage. -/
def accWrites (m : Model) (d : Data) : List (Nat × ℚ) :=
  (stageTypes m Stage.ACC).flatMap (accGroupWrites m d)

/-- Scatter-write a list of (address, value) pairs into a flat buffer
(`buf.at[adrs].set(vals)`; an out-of-range address is dropped, and with
duplicate addresses the last pair wins). -/
def scatter (buf : List ℚ) (ws : List (Nat × ℚ)) : List ℚ :=
  ws.foldl (fun b pr => b.set pr.1 pr.2) buf

/-- The position-stage entry point `sensor_pos`: identity when the global
sensor disable bit is set or no position-stage pair was produced, else a new
`Data` with the collected pairs scattered into `sensordata`. -/
def sensor_pos (p : Prims) (m : Model) (d : Data) : Data :=
  if m.opt.disableflags &&& mjDSBL_SENSOR ≠ 0 then d
  else if (posWrites p m d).isEmpty then d
  else { d with sensordata := scatter d.sensordata (posWrites p m d) }

/-- The velocity-stage entry point `sensor_vel`. -/
def sensor_vel (m : Model) (d : Data) : Data :=
  if m.opt.disableflags &&& mjDSBL_SENSOR ≠ 0 then d
  else if (velWrites m d).isEmpty then d
  else { d with sensordata := scatter d.sensordata (velWrites m d) }

/-- The acceleration-stage entry point `sensor_acc`. -/
def sensor_acc (m : Model) (d : Data) : Data :=
  if m.opt.disableflags &&& mjDSBL_SENSOR ≠ 0 then d
  else if (accWrites m d).isEmpty then d
  else { d with sensordata := scatter d.sensordata (accWrites m d) }

/-- The sensor types handled by the position-stage dispatch chain of
`sensor_pos` (all others fall into the `continue` branch). -/
def posHandled : SensorType → Bool
  | SensorType.MAGNETOMETER => true
  | SensorType.CAMPROJECTION => true
  | SensorType.RANGEFINDER => true
  | SensorType.JOINTPOS => true
  | SensorType.ACTUATORPOS => true
  | SensorType.BALLQUAT => true
  | SensorType.FRAMEPOS => true
  | SensorType.FRAMEXAXIS => true
  | SensorType.FRAMEYAXIS => true
  | SensorType.FRAMEZAXIS => true
  | SensorType.FRAMEQUAT => true
  | SensorType.SUBTREECOM => true
  | SensorType.CLOCK => true
  | _ => false

/-- The sensor types handled by the velocity-stage dispatch chain. -/
def velHandled : SensorType → Bool
  | SensorType.JOINTVEL => true
  | SensorType.ACTUATORVEL => true
  | SensorType.BALLANGVEL => true
  | _ => false

/-- The sensor types handled by the acceleration-stage dispatch chain. -/
def accHandled : SensorType → Bool
  | SensorType.ACTUATORFRC => true
  | SensorType.JOINTACTFRC => true
  | _ => false

/-- A concrete instantiation of the external collaborators, used to evaluate
the embedding on concrete models. -/
def pTriv : Prims :=
  { tan := fun _ => 1, sqrt := fun _ => 1, pi := 3,
    ray := fun _ _ _ _ _ => (-1, -1) }

/-- A model with the global sensor disable bit set and no sensors. -/
def mDis : Model := { opt := ⟨mjDSBL_SENSOR, ⟨0, 0, 0⟩⟩ }

/-- A state with a two-slot sensor buffer. -/
def dW0 : Data := { sensordata := [1, 2] }

/-- A model with two joint-position sensors that share the type `JOINTPOS`
but need different stages: sensor 0 needs the position stage, sensor 1 the
velocity stage. -/
def mC2 : Model :=
  { opt := ⟨0, ⟨0, 0, 0⟩⟩,
    sensor_type := [SensorType.JOINTPOS, SensorType.JOINTPOS],
    sensor_objtype := [ObjType.UNKNOWN, ObjType.UNKNOWN],
    sensor_objid := [0, 1],
    sensor_reftype := [ObjType.UNKNOWN, ObjType.UNKNOWN],
    sensor_refid := [-1, -1],
    sensor_adr := [0, 1],
    sensor_needstage := [Stage.POS, Stage.VEL],
    jnt_qposadr := [0, 1] }

/-- A state for `mC2` with distinguishable joint positions. -/
def dC2 : Data := { qpos := [5, 7], sensordata := [0, 0] }

/-- A model with a single frame-position sensor on an extended body, with the
world (sentinel) reference. -/
def mC1 : Model :=
  { opt := ⟨0, ⟨0, 0, 0⟩⟩,
    sensor_type := [SensorType.FRAMEPOS],
    sensor_objtype := [ObjType.XBODY],
    sensor_objid := [0],
    sensor_reftype := [ObjType.UNKNOWN],
    sensor_refid := [-1],
    sensor_adr := [0],
    sensor_needstage := [Stage.POS] }

/-- A state for `mC1`. -/
def dC1 : Data := { xpos := [⟨1, 2, 3⟩], sensordata := [0, 0, 0] }

/-- Like `mC1`, but the world (`UNKNOWN`) reference carries the nonnegative
reference id 0 instead of the sentinel `-1`. -/
def mC1b : Model :=
  { opt := ⟨0, ⟨0, 0, 0⟩⟩,
    sensor_type := [SensorType.FRAMEPOS],
    sensor_objtype := [ObjType.XBODY],
    sensor_objid := [0],
    sensor_reftype := [ObjType.UNKNOWN],
    sensor_refid := [0],
    sensor_adr := [0],
    sensor_needstage := [Stage.POS] }

/-- A state for `mC1b`, with a sensor buffer prefilled with 9s so that the
written zeros are visible. -/
def dC1b : Data := { xpos := [⟨1, 2, 3⟩], sensordata := [9, 9, 9] }

/-- A model with a single frame-quaternion sensor on a geom whose reference
is an extended body. -/
def mC3 : Model :=
  { opt := ⟨0, ⟨0, 0, 0⟩⟩,
    sensor_type := [SensorType.FRAMEQUAT],
    sensor_objtype := [ObjType.GEOM],
    sensor_objid := [0],
    sensor_reftype := [ObjType.XBODY],
    sensor_refid := [0],
    sensor_adr := [0],
    sensor_needstage := [Stage.POS],
    geom_bodyid := [0],
    geom_quat := [⟨0, 1, 0, 0⟩] }

/-- A state for `mC3`. -/
def dC3 : Data := { xquat := [⟨1, 0, 0, 0⟩], sensordata := [0, 0, 0, 0] }

/-- A model with a single touch sensor, a type the position stage does not
implement, declared as needing the position stage. -/
def mC5 : Model :=
  { opt := ⟨0, ⟨0, 0, 0⟩⟩,
    sensor_type := [SensorType.TOUCH],
    sensor_objtype := [ObjType.SITE],
    sensor_objid := [0],
    sensor_reftype := [ObjType.UNKNOWN],
    sensor_refid := [-1],
    sensor_adr := [0],
    sensor_needstage := [Stage.POS] }

/-- A state for `mC5`. -/
def dC5 : Data := { sensordata := [9] }

/-- A model with a single camera-projection sensor: target site 0, reference
camera 0 with resolution (4, 6) and focal length from the field of view. -/
def mC6 : Model :=
  { opt := ⟨0, ⟨0, 0, 0⟩⟩,
    sensor_type := [SensorType.CAMPROJECTION],
    sensor_objtype := [ObjType.SITE],
    sensor_objid := [0],
    sensor_reftype := [ObjType.CAMERA],
    sensor_refid := [0],
    sensor_adr := [0],
    sensor_needstage := [Stage.POS],
    cam_fovy := [90],
    cam_resolution := [(4, 6)],
    cam_sensorsize := [(0, 0)],
    cam_intrinsic := [(0, 0)] }

/-- A state for `mC6`: the target site sits on the camera's optical axis at
depth 1. -/
def dC6 : Data :=
  { site_xpos := [⟨0, 0, 1⟩], cam_xpos := [⟨0, 0, 0⟩], cam_xmat := [Mat3.id],
    sensordata := [0, 0] }

/-- A model with one joint-position sensor needing the position stage. -/
def mW9 : Model :=
  { opt := ⟨0, ⟨0, 0, 0⟩⟩,
    sensor_type := [SensorType.JOINTPOS],
    sensor_objtype := [ObjType.UNKNOWN],
    sensor_objid := [0],
    sensor_reftype := [ObjType.UNKNOWN],
    sensor_refid := [-1],
    sensor_adr := [0],
    sensor_needstage := [Stage.POS],
    jnt_qposadr := [0] }

/-- A state for `mW9`. -/
def dW9 : Data := { qpos := [11], sensordata := [0] }

theorem scatter_nil (buf : List ℚ) : scatter buf [] = buf := rfl

theorem scatter_cons (buf : List ℚ) (pr : Nat × ℚ) (ws : List (Nat × ℚ)) :
    scatter buf (pr :: ws) = scatter (buf.set pr.1 pr.2) ws := rfl

theorem scatter_length (buf : List ℚ) (ws : List (Nat × ℚ)) :
    (scatter buf ws).length = buf.length := by
  induction ws generalizing buf with
  | nil => rfl
  | cons pr ws ih => rw [scatter_cons, ih, List.length_set]

theorem scatter_getElem?_of_not_mem (buf : List ℚ) (ws : List (Nat × ℚ)) (a : Nat)
    (h : a ∉ ws.map Prod.fst) : (scatter buf ws)[a]? = buf[a]? := by
  induction ws generalizing buf with
  | nil => rfl
  | cons pr ws ih =>
    simp only [List.map_cons, List.mem_cons, not_or] at h
    rw [scatter_cons, ih _ h.2, List.getElem?_set, if_neg (fun hq => h.1 hq.symm)]

theorem scatter_getD_of_not_mem (buf : List ℚ) (ws : List (Nat × ℚ)) (a : Nat)
    (h : a ∉ ws.map Prod.fst) : (scatter buf ws).getD a 0 = buf.getD a 0 := by
  rw [List.getD_eq_getElem?_getD, List.getD_eq_getElem?_getD,
    scatter_getElem?_of_not_mem buf ws a h]

theorem scatter_getElem?_congr (ws : List (Nat × ℚ)) (b1 b2 : List ℚ) (a : Nat)
    (hlen : b1.length = b2.length) (hmem : a ∈ ws.map Prod.fst)
    (ha : a < b1.length) : (scatter b1 ws)[a]? = (scatter b2 ws)[a]? := by
  induction ws generalizing b1 b2 with
  | nil => simp at hmem
  | cons pr ws ih =>
    by_cases hm : a ∈ ws.map Prod.fst
    · rw [scatter_cons, scatter_cons]
      exact ih (b1.set pr.1 pr.2) (b2.set pr.1 pr.2)
        (by rw [List.length_set, List.length_set, hlen])
        hm (by rw [List.length_set]; exact ha)
    · have hpa : pr.1 = a := by
        simp only [List.map_cons, List.mem_cons] at hmem
        rcases hmem with h | h
        · exact h.symm
        · exact absurd h hm
      rw [scatter_cons, scatter_cons, scatter_getElem?_of_not_mem _ _ _ hm,
        scatter_getElem?_of_not_mem _ _ _ hm, List.getElem?_set,
        List.getElem?_set, if_pos hpa, if_pos hpa, hpa,
        if_pos ha, if_pos (hlen ▸ ha)]

theorem scatter_getD_of_uniq (buf : List ℚ) (ws : List (Nat × ℚ)) (a : Nat) (v : ℚ)
    (hmem : (a, v) ∈ ws) (huniq : ∀ pr ∈ ws, pr.1 = a → pr.2 = v)
    (hlen : a < buf.length) : (scatter buf ws).getD a 0 = v := by
  induction ws generalizing buf with
  | nil => simp at hmem
  | cons pr ws ih =>
    by_cases hm : a ∈ ws.map Prod.fst
    · obtain ⟨q, hq, hqa⟩ := List.mem_map.mp hm
      have hv : q.2 = v := huniq q (List.mem_cons_of_mem _ hq) hqa
      have hmem2 : (a, v) ∈ ws := by
        have hqe : q = (a, v) := by
          rw [← hqa, ← hv]
        rw [← hqe]
        exact hq
      rw [scatter_cons]
      exact ih _ hmem2 (fun r hr ha2 => huniq r (List.mem_cons_of_mem _ hr) ha2)
        (by rw [List.length_set]; exact hlen)
    · rcases List.mem_cons.mp hmem with h | h
      · rw [scatter_cons, List.getD_eq_getElem?_getD,
          scatter_getElem?_of_not_mem _ _ _ hm, ← h, List.getElem?_set,
          if_pos rfl, if_pos hlen]
        rfl
      · exact absurd (List.mem_map.mpr ⟨(a, v), h, rfl⟩) hm

theorem scatter_idem (buf : List ℚ) (ws : List (Nat × ℚ)) :
    scatter (scatter buf ws) ws = scatter buf ws := by
  apply List.ext_getElem?
  intro i
  by_cases hm : i ∈ ws.map Prod.fst
  · by_cases hi : i < buf.length
    · exact scatter_getElem?_congr ws (scatter buf ws) buf i
        (scatter_length buf ws) hm (by rw [scatter_length]; exact hi)
    · rw [List.getElem?_eq_none, List.getElem?_eq_none]
      · rw [scatter_length]; omega
      · rw [scatter_length, scatter_length]; omega
  · rw [scatter_getElem?_of_not_mem _ _ _ hm]

theorem mem_typeIdx {m : Model} {t : SensorType} {i : Nat} :
    i ∈ typeIdx m t ↔ i < nsensor m ∧ m.stype i = t := by
  simp [typeIdx, List.mem_filter, List.mem_range]

theorem mem_stageTypes {m : Model} {st : Stage} {t : SensorType} :
    t ∈ stageTypes m st ↔
      ∃ j, j < nsensor m ∧ j < m.sensor_needstage.length ∧
        m.stype j = t ∧ m.sstage j = st := by
  unfold stageTypes
  rw [List.mem_dedup, List.mem_map]
  constructor
  · rintro ⟨pr, hpr, hprt⟩
    rw [List.mem_filter] at hpr
    obtain ⟨hz, hst⟩ := hpr
    have hst2 : pr.2 = st := of_decide_eq_true hst
    obtain ⟨j, hj, hje⟩ := List.mem_iff_getElem.mp hz
    rw [List.length_zip] at hj
    have hj1 : j < m.sensor_type.length := lt_of_lt_of_le hj (min_le_left _ _)
    have hj2 : j < m.sensor_needstage.length := lt_of_lt_of_le hj (min_le_right _ _)
    rw [List.getElem_zip] at hje
    refine ⟨j, hj1, hj2, ?_, ?_⟩
    · unfold Model.stype
      rw [List.getD_eq_getElem _ _ hj1, ← hprt, ← hje]
    · unfold Model.sstage
      rw [List.getD_eq_getElem _ _ hj2, ← hst2, ← hje]
  · rintro ⟨j, hj1, hj2, hty, hst⟩
    refine ⟨(m.sensor_type[j], m.sensor_needstage[j]), List.mem_filter.mpr ⟨?_, ?_⟩, ?_⟩
    · refine List.mem_iff_getElem.mpr ⟨j, ?_, ?_⟩
      · rw [List.length_zip]
        unfold nsensor at hj1
        omega
      · exact List.getElem_zip
    · apply decide_eq_true
      unfold Model.sstage at hst
      rw [List.getD_eq_getElem _ _ hj2] at hst
      exact hst
    · unfold Model.stype at hty
      rw [List.getD_eq_getElem _ _ hj1] at hty
      exact hty

theorem mem_groupedBy {α : Type} [DecidableEq α] (g : List Nat) (key : Nat → α)
    (f : Nat → List (Nat × ℚ)) (pr : Nat × ℚ) :
    pr ∈ groupedBy g key f ↔ ∃ j, j ∈ g ∧ pr ∈ f j := by
  unfold groupedBy
  rw [List.mem_flatMap]
  constructor
  · rintro ⟨kv, hkv, hpr⟩
    rw [List.mem_flatMap] at hpr
    obtain ⟨j, hj, hjpr⟩ := hpr
    rw [List.mem_filter] at hj
    exact ⟨j, hj.1, hjpr⟩
  · rintro ⟨j, hj, hjpr⟩
    refine ⟨key j, ?_, ?_⟩
    · rw [List.mem_dedup]
      exact List.mem_map_of_mem key hj
    · rw [List.mem_flatMap]
      exact ⟨j, List.mem_filter.mpr ⟨hj, by simp⟩, hjpr⟩

theorem posWrites_cover (p : Prims) (m : Model) (d : Data) (pr : Nat × ℚ)
    (h : pr ∈ posWrites p m d) :
    ∃ j, j < nsensor m ∧ m.stype j ∈ stageTypes m Stage.POS ∧
      pr ∈ sensorPairs p m d j := by
  unfold posWrites at h
  rw [List.mem_flatMap] at h
  obtain ⟨t, ht, hpr⟩ := h
  cases t <;> simp only [posGroupWrites] at hpr <;>
    first
      | exact absurd hpr (List.not_mem_nil pr)
      | (rw [List.mem_flatMap] at hpr
         obtain ⟨j, hj, hjpr⟩ := hpr
         obtain ⟨hjn, hjt⟩ := mem_typeIdx.mp hj
         exact ⟨j, hjn, by rw [hjt]; exact ht,
           by unfold sensorPairs; rw [hjt]; exact hjpr⟩)
      | (rw [mem_groupedBy] at hpr
         obtain ⟨j, hj, hjpr⟩ := hpr
         obtain ⟨hjn, hjt⟩ := mem_typeIdx.mp hj
         exact ⟨j, hjn, by rw [hjt]; exact ht,
           by unfold sensorPairs; rw [hjt]; exact hjpr⟩)

theorem sensorPairs_sub_posWrites (p : Prims) (m : Model) (d : Data) (j : Nat)
    (hjn : j < nsensor m) (ht : m.stype j ∈ stageTypes m Stage.POS)
    (pr : Nat × ℚ) (hpr : pr ∈ sensorPairs p m d j) : pr ∈ posWrites p m d := by
  unfold posWrites
  rw [List.mem_flatMap]
  refine ⟨m.stype j, ht, ?_⟩
  have hj : j ∈ typeIdx m (m.stype j) := mem_typeIdx.mpr ⟨hjn, rfl⟩
  unfold sensorPairs at hpr
  cases hty : m.stype j <;> rw [hty] at hj hpr <;>
    simp only [posGroupWrites] <;>
    first
      | exact absurd hpr (List.not_mem_nil pr)
      | (rw [List.mem_flatMap]; exact ⟨j, hj, hpr⟩)
      | (rw [mem_groupedBy]; exact ⟨j, hj, hpr⟩)

theorem velWrites_cover (m : Model) (d : Data) (pr : Nat × ℚ)
    (h : pr ∈ velWrites m d) :
    ∃ j, j < nsensor m ∧ m.stype j ∈ stageTypes m Stage.VEL ∧
      pr ∈ velSensorPairs m d j := by
  unfold velWrites at h
  rw [List.mem_flatMap] at h
  obtain ⟨t, ht, hpr⟩ := h
  cases t <;> simp only [velGroupWrites] at hpr <;>
    first
      | exact absurd hpr (List.not_mem_nil pr)
      | (rw [List.mem_flatMap] at hpr
         obtain ⟨j, hj, hjpr⟩ := hpr
         obtain ⟨hjn, hjt⟩ := mem_typeIdx.mp hj
         exact ⟨j, hjn, by rw [hjt]; exact ht,
           by unfold velSensorPairs; rw [hjt]; exact hjpr⟩)

theorem velSensorPairs_sub (m : Model) (d : Data) (j : Nat)
    (hjn : j < nsensor m) (ht : m.stype j ∈ stageTypes m Stage.VEL)
    (pr : Nat × ℚ) (hpr : pr ∈ velSensorPairs m d j) : pr ∈ velWrites m d := by
  unfold velWrites
  rw [List.mem_flatMap]
  refine ⟨m.stype j, ht, ?_⟩
  have hj : j ∈ typeIdx m (m.stype j) := mem_typeIdx.mpr ⟨hjn, rfl⟩
  unfold velSensorPairs at hpr
  cases hty : m.stype j <;> rw [hty] at hj hpr <;>
    simp only [velGroupWrites] <;>
    first
      | exact absurd hpr (List.not_mem_nil pr)
      | (rw [List.mem_flatMap]; exact ⟨j, hj, hpr⟩)

theorem accWrites_cover (m : Model) (d : Data) (pr : Nat × ℚ)
    (h : pr ∈ accWrites m d) :
    ∃ j, j < nsensor m ∧ m.stype j ∈ stageTypes m Stage.ACC ∧
      pr ∈ accSensorPairs m d j := by
  unfold accWrites at h
  rw [List.mem_flatMap] at h
  obtain ⟨t, ht, hpr⟩ := h
  cases t <;> simp only [accGroupWrites] at hpr <;>
    first
      | exact absurd hpr (List.not_mem_nil pr)
      | (rw [List.mem_flatMap] at hpr
         obtain ⟨j, hj, hjpr⟩ := hpr
         obtain ⟨hjn, hjt⟩ := mem_typeIdx.mp hj
         exact ⟨j, hjn, by rw [hjt]; exact ht,
           by unfold accSensorPairs; rw [hjt]; exact hjpr⟩)

theorem accSensorPairs_sub (m : Model) (d : Data) (j : Nat)
    (hjn : j < nsensor m) (ht : m.stype j ∈ stageTypes m Stage.ACC)
    (pr : Nat × ℚ) (hpr : pr ∈ accSensorPairs m d j) : pr ∈ accWrites m d := by
  unfold accWrites
  rw [List.mem_flatMap]
  refine ⟨m.stype j, ht, ?_⟩
  have hj : j ∈ typeIdx m (m.stype j) := mem_typeIdx.mpr ⟨hjn, rfl⟩
  unfold accSensorPairs at hpr
  cases hty : m.stype j <;> rw [hty] at hj hpr <;>
    simp only [accGroupWrites] <;>
    first
      | exact absurd hpr (List.not_mem_nil pr)
      | (rw [List.mem_flatMap]; exact ⟨j, hj, hpr⟩)

theorem mem_vec3Writes (a : Nat) (v : Vec3) (pr : Nat × ℚ) (h : pr ∈ vec3Writes a v) :
    ∃ k, k < 3 ∧ pr.1 = a + k := by
  simp only [vec3Writes, List.mem_cons, List.not_mem_nil, or_false] at h
  rcases h with rfl | rfl | rfl
  · exact ⟨0, by omega, by simp⟩
  · exact ⟨1, by omega, rfl⟩
  · exact ⟨2, by omega, rfl⟩

theorem mem_npWrites (a : Nat) (v : NpVal) (pr : Nat × ℚ) (h : pr ∈ npWrites a v) :
    ∃ k, k < 3 ∧ pr.1 = a + k := by
  obtain ⟨a1, v1⟩ := pr
  unfold npWrites at h
  have h1 : a1 ∈ [a, a + 1, a + 2] := (List.of_mem_zip h).1
  simp only [List.mem_cons, List.not_mem_nil, or_false] at h1
  rcases h1 with h1 | h1 | h1
  · exact ⟨0, by omega, by omega⟩
  · exact ⟨1, by omega, h1⟩
  · exact ⟨2, by omega, h1⟩

theorem mem_quatWrites (a : Nat) (q : Quat) (pr : Nat × ℚ) (h : pr ∈ quatWrites a q) :
    ∃ k, k < 4 ∧ pr.1 = a + k := by
  simp only [quatWrites, List.mem_cons, List.not_mem_nil, or_false] at h
  rcases h with rfl | rfl | rfl | rfl
  · exact ⟨0, by omega, by simp⟩
  · exact ⟨1, by omega, rfl⟩
  · exact ⟨2, by omega, rfl⟩
  · exact ⟨3, by omega, rfl⟩

theorem mem_camWrites (a : Nat) (v1 v2 : ℚ) (pr : Nat × ℚ)
    (h : pr ∈ [(a, v1), (a + 1, v2)]) : ∃ k, k < 2 ∧ pr.1 = a + k := by
  simp only [List.mem_cons, List.not_mem_nil, or_false] at h
  rcases h with rfl | rfl
  · exact ⟨0, by omega, by simp⟩
  · exact ⟨1, by omega, rfl⟩

theorem mem_singleWrite (a : Nat) (v : ℚ) (pr : Nat × ℚ) (h : pr ∈ [(a, v)]) :
    pr.1 = a := by
  simp only [List.mem_singleton] at h
  rw [h]

theorem sensorPairs_addr (p : Prims) (m : Model) (d : Data) (j : Nat) (pr : Nat × ℚ)
    (h : pr ∈ sensorPairs p m d j) :
    m.sadr j ≤ pr.1 ∧ pr.1 < m.sadr j + sensorWidth (m.stype j) := by
  unfold sensorPairs at h
  cases hty : m.stype j <;> rw [hty] at h <;> simp only [sensorWidth] <;>
    first
      | exact absurd h (List.not_mem_nil pr)
      | (obtain ⟨k, hk, he⟩ := mem_vec3Writes _ _ _ h; omega)
      | (obtain ⟨k, hk, he⟩ := mem_npWrites _ _ _ h; omega)
      | (obtain ⟨k, hk, he⟩ := mem_quatWrites _ _ _ h; omega)
      | (obtain ⟨k, hk, he⟩ := mem_camWrites _ _ _ _ h; omega)
      | (have he := mem_singleWrite _ _ _ h; omega)

theorem velSensorPairs_addr (m : Model) (d : Data) (j : Nat) (pr : Nat × ℚ)
    (h : pr ∈ velSensorPairs m d j) :
    m.sadr j ≤ pr.1 ∧ pr.1 < m.sadr j + sensorWidth (m.stype j) := by
  unfold velSensorPairs at h
  cases hty : m.stype j <;> rw [hty] at h <;> simp only [sensorWidth] <;>
    first
      | exact absurd h (List.not_mem_nil pr)
      | (obtain ⟨k, hk, he⟩ := mem_vec3Writes _ _ _ h; omega)
      | (have he := mem_singleWrite _ _ _ h; omega)

theorem accSensorPairs_addr (m : Model) (d : Data) (j : Nat) (pr : Nat × ℚ)
    (h : pr ∈ accSensorPairs m d j) :
    m.sadr j ≤ pr.1 ∧ pr.1 < m.sadr j + sensorWidth (m.stype j) := by
  unfold accSensorPairs at h
  cases hty : m.stype j <;> rw [hty] at h <;> simp only [sensorWidth] <;>
    first
      | exact absurd h (List.not_mem_nil pr)
      | (have he := mem_singleWrite _ _ _ h; omega)

theorem sensor_pos_frame (p : Prims) (m : Model) (d : Data) :
    sensor_pos p m d = { d with sensordata := (sensor_pos p m d).sensordata } := by
  unfold sensor_pos
  split
  · rfl
  · split
    · rfl
    · rfl

theorem sensor_vel_frame (m : Model) (d : Data) :
    sensor_vel m d = { d with sensordata := (sensor_vel m d).sensordata } := by
  unfold sensor_vel
  split
  · rfl
  · split
    · rfl
    · rfl

theorem sensor_acc_frame (m : Model) (d : Data) :
    sensor_acc m d = { d with sensordata := (sensor_acc m d).sensordata } := by
  unfold sensor_acc
  split
  · rfl
  · split
    · rfl
    · rfl

theorem sensor_pos_getD_of_uncovered (p : Prims) (m : Model) (d : Data) (a : Nat)
    (h : ∀ j, j < nsensor m → m.stype j ∈ stageTypes m Stage.POS →
      ∀ k, k < sensorWidth (m.stype j) → m.sadr j + k ≠ a) :
    (sensor_pos p m d).sensordata.getD a 0 = d.sensordata.getD a 0 := by
  unfold sensor_pos
  split
  · rfl
  show (if (posWrites p m d).isEmpty = true then d
        else { d with sensordata := scatter d.sensordata (posWrites p m d) }).sensordata.getD a 0
      = d.sensordata.getD a 0
  split
  · rfl
  show (scatter d.sensordata (posWrites p m d)).getD a 0 = d.sensordata.getD a 0
  apply scatter_getD_of_not_mem
  intro hmem
  obtain ⟨pr, hpr, hpra⟩ := List.mem_map.mp hmem
  obtain ⟨j, hj, hjt, hjp⟩ := posWrites_cover p m d pr hpr
  obtain ⟨h1, h2⟩ := sensorPairs_addr p m d j pr hjp
  exact h j hj hjt (pr.1 - m.sadr j) (by omega) (by omega)

theorem sensor_vel_getD_of_uncovered (m : Model) (d : Data) (a : Nat)
    (h : ∀ j, j < nsensor m → m.stype j ∈ stageTypes m Stage.VEL →
      ∀ k, k < sensorWidth (m.stype j) → m.sadr j + k ≠ a) :
    (sensor_vel m d).sensordata.getD a 0 = d.sensordata.getD a 0 := by
  unfold sensor_vel
  split
  · rfl
  show (if (velWrites m d).isEmpty = true then d
        else { d with sensordata := scatter d.sensordata (velWrites m d) }).sensordata.getD a 0
      = d.sensordata.getD a 0
  split
  · rfl
  show (scatter d.sensordata (velWrites m d)).getD a 0 = d.sensordata.getD a 0
  apply scatter_getD_of_not_mem
  intro hmem
  obtain ⟨pr, hpr, hpra⟩ := List.mem_map.mp hmem
  obtain ⟨j, hj, hjt, hjp⟩ := velWrites_cover m d pr hpr
  obtain ⟨h1, h2⟩ := velSensorPairs_addr m d j pr hjp
  exact h j hj hjt (pr.1 - m.sadr j) (by omega) (by omega)

theorem sensor_acc_getD_of_uncovered (m : Model) (d : Data) (a : Nat)
    (h : ∀ j, j < nsensor m → m.stype j ∈ stageTypes m Stage.ACC →
      ∀ k, k < sensorWidth (m.stype j) → m.sadr j + k ≠ a) :
    (sensor_acc m d).sensordata.getD a 0 = d.sensordata.getD a 0 := by
  unfold sensor_acc
  split
  · rfl
  show (if (accWrites m d).isEmpty = true then d
        else { d with sensordata := scatter d.sensordata (accWrites m d) }).sensordata.getD a 0
      = d.sensordata.getD a 0
  split
  · rfl
  show (scatter d.sensordata (accWrites m d)).getD a 0 = d.sensordata.getD a 0
  apply scatter_getD_of_not_mem
  intro hmem
  obtain ⟨pr, hpr, hpra⟩ := List.mem_map.mp hmem
  obtain ⟨j, hj, hjt, hjp⟩ := accWrites_cover m d pr hpr
  obtain ⟨h1, h2⟩ := accSensorPairs_addr m d j pr hjp
  exact h j hj hjt (pr.1 - m.sadr j) (by omega) (by omega)

theorem sensor_pos_getD_of_pair (p : Prims) (m : Model) (d : Data) (i a : Nat) (v : ℚ)
    (hdis : m.opt.disableflags &&& mjDSBL_SENSOR = 0)
    (hin : i < nsensor m) (hit : m.stype i ∈ stageTypes m Stage.POS)
    (hmem : (a, v) ∈ sensorPairs p m d i)
    (huni : ∀ j, j < nsensor m → m.stype j ∈ stageTypes m Stage.POS → j ≠ i →
      ∀ k, k < sensorWidth (m.stype j) → m.sadr j + k ≠ a)
    (hself : ∀ pr ∈ sensorPairs p m d i, pr.1 = a → pr.2 = v)
    (hlen : a < d.sensordata.length) :
    (sensor_pos p m d).sensordata.getD a 0 = v := by
  have hws : (a, v) ∈ posWrites p m d := sensorPairs_sub_posWrites p m d i hin hit _ hmem
  unfold sensor_pos
  rw [if_neg (not_ne_iff.mpr hdis)]
  show (if (posWrites p m d).isEmpty = true then d
        else { d with sensordata := scatter d.sensordata (posWrites p m d) }).sensordata.getD a 0
      = v
  rw [if_neg (fun hE => List.ne_nil_of_mem hws (List.isEmpty_iff.mp hE))]
  show (scatter d.sensordata (posWrites p m d)).getD a 0 = v
  apply scatter_getD_of_uniq _ _ _ _ hws _ hlen
  intro pr hpr hpra
  obtain ⟨j, hj, hjt, hjp⟩ := posWrites_cover p m d pr hpr
  by_cases hji : j = i
  · subst hji
    exact hself pr hjp hpra
  · obtain ⟨h1, h2⟩ := sensorPairs_addr p m d j pr hjp
    exact absurd (show m.sadr j + (pr.1 - m.sadr j) = a by omega)
      (huni j hj hjt hji (pr.1 - m.sadr j) (by omega))

theorem posGroupWrites_sensordata_inv (p : Prims) (hp : RayPure p) (m : Model)
    (d : Data) (s : List ℚ) (t : SensorType) :
    posGroupWrites p m { d with sensordata := s } t = posGroupWrites p m d t := by
  cases t <;> simp only [posGroupWrites] <;> try rfl
  unfold groupedBy
  congr 1
  funext kv
  congr 1
  funext j
  unfold rangefinderPairs
  simp only [hp m d s]

theorem posWrites_sensordata_inv (p : Prims) (hp : RayPure p) (m : Model)
    (d : Data) (s : List ℚ) :
    posWrites p m { d with sensordata := s } = posWrites p m d := by
  unfold posWrites
  congr 1
  funext t
  exact posGroupWrites_sensordata_inv p hp m d s t

theorem velWrites_sensordata_inv (m : Model) (d : Data) (s : List ℚ) :
    velWrites m { d with sensordata := s } = velWrites m d := by
  unfold velWrites
  congr 1

theorem accWrites_sensordata_inv (m : Model) (d : Data) (s : List ℚ) :
    accWrites m { d with sensordata := s } = accWrites m d := by
  unfold accWrites
  congr 1

theorem sensor_pos_idem (p : Prims) (hp : RayPure p) (m : Model) (d : Data) :
    sensor_pos p m (sensor_pos p m d) = sensor_pos p m d := by
  by_cases hdis : m.opt.disableflags &&& mjDSBL_SENSOR ≠ 0
  · have h1 : sensor_pos p m d = d := by
      rw [sensor_pos, if_pos hdis]
    rw [h1]
    exact h1
  · by_cases hE : (posWrites p m d).isEmpty = true
    · have h1 : sensor_pos p m d = d := by
        rw [sensor_pos, if_neg hdis, if_pos hE]
      rw [h1]
      exact h1
    · have h1 : sensor_pos p m d
          = { d with sensordata := scatter d.sensordata (posWrites p m d) } := by
        rw [sensor_pos, if_neg hdis, if_neg hE]
      rw [h1]
      have h2 : posWrites p m
            { d with sensordata := scatter d.sensordata (posWrites p m d) }
          = posWrites p m d := posWrites_sensordata_inv p hp m d _
      rw [sensor_pos, if_neg hdis, h2, if_neg hE]
      show ({ d with
              sensordata := scatter (scatter d.sensordata (posWrites p m d))
                (posWrites p m d) } : Data)
          = { d with sensordata := scatter d.sensordata (posWrites p m d) }
      rw [scatter_idem]

theorem sensor_vel_idem (m : Model) (d : Data) :
    sensor_vel m (sensor_vel m d) = sensor_vel m d := by
  by_cases hdis : m.opt.disableflags &&& mjDSBL_SENSOR ≠ 0
  · have h1 : sensor_vel m d = d := by
      rw [sensor_vel, if_pos hdis]
    rw [h1]
    exact h1
  · by_cases hE : (velWrites m d).isEmpty = true
    · have h1 : sensor_vel m d = d := by
        rw [sensor_vel, if_neg hdis, if_pos hE]
      rw [h1]
      exact h1
    · have h1 : sensor_vel m d
          = { d with sensordata := scatter d.sensordata (velWrites m d) } := by
        rw [sensor_vel, if_neg hdis, if_neg hE]
      rw [h1]
      have h2 : velWrites m { d with sensordata := scatter d.sensordata (velWrites m d) }
          = velWrites m d := velWrites_sensordata_inv m d _
      rw [sensor_vel, if_neg hdis, h2, if_neg hE]
      show ({ d with
              sensordata := scatter (scatter d.sensordata (velWrites m d))
                (velWrites m d) } : Data)
          = { d with sensordata := scatter d.sensordata (velWrites m d) }
      rw [scatter_idem]

theorem sensor_acc_idem (m : Model) (d : Data) :
    sensor_acc m (sensor_acc m d) = sensor_acc m d := by
  by_cases hdis : m.opt.disableflags &&& mjDSBL_SENSOR ≠ 0
  · have h1 : sensor_acc m d = d := by
      rw [sensor_acc, if_pos hdis]
    rw [h1]
    exact h1
  · by_cases hE : (accWrites m d).isEmpty = true
    · have h1 : sensor_acc m d = d := by
        rw [sensor_acc, if_neg hdis, if_pos hE]
      rw [h1]
      exact h1
    · have h1 : sensor_acc m d
          = { d with sensordata := scatter d.sensordata (accWrites m d) } := by
        rw [sensor_acc, if_neg hdis, if_neg hE]
      rw [h1]
      have h2 : accWrites m { d with sensordata := scatter d.sensordata (accWrites m d) }
          = accWrites m d := accWrites_sensordata_inv m d _
      rw [sensor_acc, if_neg hdis, h2, if_neg hE]
      show ({ d with
              sensordata := scatter (scatter d.sensordata (accWrites m d))
                (accWrites m d) } : Data)
          = { d with sensordata := scatter d.sensordata (accWrites m d) }
      rw [scatter_idem]

theorem clampDenom_eq_self (x : ℚ) : clampDenom x = x := by
  unfold clampDenom
  split
  · rename_i h
    rw [abs_lt] at h
    rw [max_eq_left (le_of_lt h.1), min_eq_left (le_of_lt h.2)]
  · rfl

theorem cam_pixel_hom (p : Prims) (target xpos : Vec3) (xmat : Mat3) (res : ℚ × ℚ)
    (fovy : ℚ) (intrinsic sensorsize : ℚ × ℚ) (ff : Bool) (cx cy cz : ℚ)
    (hc : xmat.transpose.mulVec (target.sub xpos) = ⟨cx, cy, cz⟩) :
    ((((imageMatrix res).mulMat34
        (focalMatrix (focalLengths p res fovy intrinsic sensorsize ff).1
          (focalLengths p res fovy intrinsic sensorsize ff).2)).mulMat4
        (rotationMat xmat)).mulMat4 (translationMat xpos)).mulVec
      ⟨target.x, target.y, target.z, 1⟩
    = ⟨-(focalLengths p res fovy intrinsic sensorsize ff).1 * cx + res.1 / 2 * cz,
       (focalLengths p res fovy intrinsic sensorsize ff).2 * cy + res.2 / 2 * cz,
       cz⟩ := by
  have hx := congrArg Vec3.x hc
  have hy := congrArg Vec3.y hc
  have hz := congrArg Vec3.z hc
  simp only [Mat3.transpose, Mat3.mulVec, Vec3.dot, Vec3.sub] at hx hy hz
  simp only [imageMatrix, focalMatrix, rotationMat, translationMat, Mat3.transpose,
    Mat3.mulMat34, Mat34.mulMat4, Mat34.mulVec, Mat34.col, Mat4.col, Vec4.dot,
    Vec3.dot, Vec3.mk.injEq]
  rw [← hx, ← hy, ← hz]
  refine ⟨by ring, by ring, by ring⟩

theorem cam_project_eq (p : Prims) (target xpos : Vec3) (xmat : Mat3) (res : ℚ × ℚ)
    (fovy : ℚ) (intrinsic sensorsize : ℚ × ℚ) (ff : Bool) (cx cy cz : ℚ)
    (hc : xmat.transpose.mulVec (target.sub xpos) = ⟨cx, cy, cz⟩) :
    _cam_project p target xpos xmat res fovy intrinsic sensorsize ff
      = ((-(focalLengths p res fovy intrinsic sensorsize ff).1 * cx
            + res.1 / 2 * cz) / clampDenom cz,
         ((focalLengths p res fovy intrinsic sensorsize ff).2 * cy
            + res.2 / 2 * cz) / clampDenom cz) := by
  simp only [_cam_project]
  rw [cam_pixel_hom p target xpos xmat res fovy intrinsic sensorsize ff cx cy cz hc]

theorem cam_project_center (p : Prims) (target xpos : Vec3) (xmat : Mat3)
    (res : ℚ × ℚ) (fovy : ℚ) (intrinsic sensorsize : ℚ × ℚ) (ff : Bool) (depth : ℚ)
    (hc : xmat.transpose.mulVec (target.sub xpos) = ⟨0, 0, depth⟩) (hd : 0 < depth) :
    _cam_project p target xpos xmat res fovy intrinsic sensorsize ff
      = (res.1 / 2, res.2 / 2) := by
  rw [cam_project_eq p target xpos xmat res fovy intrinsic sensorsize ff 0 0 depth hc,
    clampDenom_eq_self]
  have hdz : depth ≠ 0 := ne_of_gt hd
  simp only [Prod.mk.injEq]
  constructor
  · field_simp
    ring
  · field_simp
    ring

theorem sensorPairs_nil_of_unhandled (p : Prims) (m : Model) (d : Data) (j : Nat)
    (h : posHandled (m.stype j) = false) : sensorPairs p m d j = [] := by
  unfold sensorPairs
  cases hty : m.stype j <;> rw [hty] at h <;> first
    | rfl
    | exact absurd h (by decide)

theorem velSensorPairs_nil_of_unhandled (m : Model) (d : Data) (j : Nat)
    (h : velHandled (m.stype j) = false) : velSensorPairs m d j = [] := by
  unfold velSensorPairs
  cases hty : m.stype j <;> rw [hty] at h <;> first
    | rfl
    | exact absurd h (by decide)

theorem accSensorPairs_nil_of_unhandled (m : Model) (d : Data) (j : Nat)
    (h : accHandled (m.stype j) = false) : accSensorPairs m d j = [] := by
  unfold accSensorPairs
  cases hty : m.stype j <;> rw [hty] at h <;> first
    | rfl
    | exact absurd h (by decide)

theorem sensor_pos_getD_of_nowrite (p : Prims) (m : Model) (d : Data) (a : Nat)
    (h : ∀ j, j < nsensor m → m.stype j ∈ stageTypes m Stage.POS →
      ∀ pr, pr ∈ sensorPairs p m d j → pr.1 ≠ a) :
    (sensor_pos p m d).sensordata.getD a 0 = d.sensordata.getD a 0 := by
  unfold sensor_pos
  split
  · rfl
  split
  · rfl
  apply scatter_getD_of_not_mem
  intro hmem
  obtain ⟨pr, hpr, hpra⟩ := List.mem_map.mp hmem
  obtain ⟨j, hj, hjt, hjp⟩ := posWrites_cover p m d pr hpr
  exact h j hj hjt pr hjp hpra

theorem sensor_vel_getD_of_nowrite (m : Model) (d : Data) (a : Nat)
    (h : ∀ j, j < nsensor m → m.stype j ∈ stageTypes m Stage.VEL →
      ∀ pr, pr ∈ velSensorPairs m d j → pr.1 ≠ a) :
    (sensor_vel m d).sensordata.getD a 0 = d.sensordata.getD a 0 := by
  unfold sensor_vel
  split
  · rfl
  split
  · rfl
  apply scatter_getD_of_not_mem
  intro hmem
  obtain ⟨pr, hpr, hpra⟩ := List.mem_map.mp hmem
  obtain ⟨j, hj, hjt, hjp⟩ := velWrites_cover m d pr hpr
  exact h j hj hjt pr hjp hpra

theorem sensor_acc_getD_of_nowrite (m : Model) (d : Data) (a : Nat)
    (h : ∀ j, j < nsensor m → m.stype j ∈ stageTypes m Stage.ACC →
      ∀ pr, pr ∈ accSensorPairs m d j → pr.1 ≠ a) :
    (sensor_acc m d).sensordata.getD a 0 = d.sensordata.getD a 0 := by
  unfold sensor_acc
  split
  · rfl
  split
  · rfl
  apply scatter_getD_of_not_mem
  intro hmem
  obtain ⟨pr, hpr, hpra⟩ := List.mem_map.mp hmem
  obtain ⟨j, hj, hjt, hjp⟩ := accWrites_cover m d pr hpr
  exact h j hj hjt pr hjp hpra

theorem vec3Writes_self_x (a : Nat) (v : Vec3) :
    ∀ pr ∈ vec3Writes a v, pr.1 = a → pr.2 = v.x := by
  intro pr hpr hpra
  simp only [vec3Writes, List.mem_cons, List.not_mem_nil, or_false] at hpr
  rcases hpr with rfl | rfl | rfl
  · rfl
  · have h2 : a + 1 = a := hpra
    exact absurd h2 (by omega)
  · have h2 : a + 2 = a := hpra
    exact absurd h2 (by omega)

theorem vec3Writes_self_y (a : Nat) (v : Vec3) :
    ∀ pr ∈ vec3Writes a v, pr.1 = a + 1 → pr.2 = v.y := by
  intro pr hpr hpra
  simp only [vec3Writes, List.mem_cons, List.not_mem_nil, or_false] at hpr
  rcases hpr with rfl | rfl | rfl
  · have h2 : a = a + 1 := hpra
    exact absurd h2 (by omega)
  · rfl
  · have h2 : a + 2 = a + 1 := hpra
    exact absurd h2 (by omega)

theorem vec3Writes_self_z (a : Nat) (v : Vec3) :
    ∀ pr ∈ vec3Writes a v, pr.1 = a + 2 → pr.2 = v.z := by
  intro pr hpr hpra
  simp only [vec3Writes, List.mem_cons, List.not_mem_nil, or_false] at hpr
  rcases hpr with rfl | rfl | rfl
  · have h2 : a = a + 2 := hpra
    exact absurd h2 (by omega)
  · have h2 : a + 1 = a + 2 := hpra
    exact absurd h2 (by omega)
  · rfl

theorem quatWrites_self_w (a : Nat) (q : Quat) :
    ∀ pr ∈ quatWrites a q, pr.1 = a → pr.2 = q.w := by
  intro pr hpr hpra
  simp only [quatWrites, List.mem_cons, List.not_mem_nil, or_false] at hpr
  rcases hpr with rfl | rfl | rfl | rfl
  · rfl
  · have h2 : a + 1 = a := hpra
    exact absurd h2 (by omega)
  · have h2 : a + 2 = a := hpra
    exact absurd h2 (by omega)
  · have h2 : a + 3 = a := hpra
    exact absurd h2 (by omega)

theorem quatWrites_self_x (a : Nat) (q : Quat) :
    ∀ pr ∈ quatWrites a q, pr.1 = a + 1 → pr.2 = q.x := by
  intro pr hpr hpra
  simp only [quatWrites, List.mem_cons, List.not_mem_nil, or_false] at hpr
  rcases hpr with rfl | rfl | rfl | rfl
  · have h2 : a = a + 1 := hpra
    exact absurd h2 (by omega)
  · rfl
  · have h2 : a + 2 = a + 1 := hpra
    exact absurd h2 (by omega)
  · have h2 : a + 3 = a + 1 := hpra
    exact absurd h2 (by omega)

theorem quatWrites_self_y (a : Nat) (q : Quat) :
    ∀ pr ∈ quatWrites a q, pr.1 = a + 2 → pr.2 = q.y := by
  intro pr hpr hpra
  simp only [quatWrites, List.mem_cons, List.not_mem_nil, or_false] at hpr
  rcases hpr with rfl | rfl | rfl | rfl
  · have h2 : a = a + 2 := hpra
    exact absurd h2 (by omega)
  · have h2 : a + 1 = a + 2 := hpra
    exact absurd h2 (by omega)
  · rfl
  · have h2 : a + 3 = a + 2 := hpra
    exact absurd h2 (by omega)

theorem quatWrites_self_z (a : Nat) (q : Quat) :
    ∀ pr ∈ quatWrites a q, pr.1 = a + 3 → pr.2 = q.z := by
  intro pr hpr hpra
  simp only [quatWrites, List.mem_cons, List.not_mem_nil, or_false] at hpr
  rcases hpr with rfl | rfl | rfl | rfl
  · have h2 : a = a + 3 := hpra
    exact absurd h2 (by omega)
  · have h2 : a + 1 = a + 3 := hpra
    exact absurd h2 (by omega)
  · have h2 : a + 2 = a + 3 := hpra
    exact absurd h2 (by omega)
  · rfl

theorem camWrites_self_fst (a : Nat) (v1 v2 : ℚ) :
    ∀ pr ∈ [(a, v1), (a + 1, v2)], pr.1 = a → pr.2 = v1 := by
  intro pr hpr hpra
  simp only [List.mem_cons, List.not_mem_nil, or_false] at hpr
  rcases hpr with rfl | rfl
  · rfl
  · have h2 : a + 1 = a := hpra
    exact absurd h2 (by omega)

theorem camWrites_self_snd (a : Nat) (v1 v2 : ℚ) :
    ∀ pr ∈ [(a, v1), (a + 1, v2)], pr.1 = a + 1 → pr.2 = v2 := by
  intro pr hpr hpra
  simp only [List.mem_cons, List.not_mem_nil, or_false] at hpr
  rcases hpr with rfl | rfl
  · have h2 : a = a + 1 := hpra
    exact absurd h2 (by omega)
  · rfl

theorem pTriv_rayPure : RayPure pTriv := fun _ _ _ _ _ _ => rfl

/-- C4: for every model whose global disable flags have the sensor bit set
and for every data state, each of the three stage functions `sensor_pos`,
`sensor_vel`, `sensor_acc` returns its input state unmodified. -/
theorem c4_sensor_disable_identity (p : Prims) (m : Model) (d : Data)
    (h : m.opt.disableflags &&& mjDSBL_SENSOR ≠ 0) :
    sensor_pos p m d = d ∧ sensor_vel m d = d ∧ sensor_acc m d = d := by
  refine ⟨?_, ?_, ?_⟩
  · rw [sensor_pos, if_pos h]
  · rw [sensor_vel, if_pos h]
  · rw [sensor_acc, if_pos h]

theorem c4_witness :
    mDis.opt.disableflags &&& mjDSBL_SENSOR ≠ 0 ∧
      (sensor_pos pTriv mDis dW0 = dW0 ∧ sensor_vel mDis dW0 = dW0 ∧
        sensor_acc mDis dW0 = dW0) :=
  ⟨by decide, c4_sensor_disable_identity pTriv mDis dW0 (by decide)⟩

/-- C7: the divisor adjustment of the camera-projection kernel is the
identity function — for a third homogeneous component inside
`(-mjMINVAL, mjMINVAL)` the `jp.clip` branch returns the component
unchanged, so the divisor actually used can be zero (for input `0`) or
smaller in magnitude than the floor (for input `mjMINVAL / 2`), contrary to
the claimed sign-preserving clamp to the floor's magnitude. -/
theorem c7_clamp_is_noop :
    (∀ x : ℚ, clampDenom x = x) ∧ clampDenom 0 = 0 ∧
      |clampDenom (mjMINVAL / 2)| < mjMINVAL :=
  ⟨clampDenom_eq_self, clampDenom_eq_self 0, by
    rw [clampDenom_eq_self]
    rw [abs_of_pos (by norm_num [mjMINVAL])]
    norm_num [mjMINVAL]⟩

/-- C9: each stage function is idempotent (applying it to its own output
gives the same state as applying it once) and deterministic (equal inputs
give equal outputs); for the position stage this assumes the ray-casting
collaborator does not read the sensor output buffer. -/
theorem c9_idempotent_deterministic (p : Prims) (m : Model) (d d2 : Data)
    (hp : RayPure p) (hd : d2 = d) :
    sensor_pos p m (sensor_pos p m d) = sensor_pos p m d ∧
    sensor_vel m (sensor_vel m d) = sensor_vel m d ∧
    sensor_acc m (sensor_acc m d) = sensor_acc m d ∧
    sensor_pos p m d2 = sensor_pos p m d ∧
    sensor_vel m d2 = sensor_vel m d ∧
    sensor_acc m d2 = sensor_acc m d := by
  subst hd
  exact ⟨sensor_pos_idem p hp m d2, sensor_vel_idem m d2, sensor_acc_idem m d2,
    rfl, rfl, rfl⟩

theorem c9_witness :
    sensor_pos pTriv mW9 (sensor_pos pTriv mW9 dW9) = sensor_pos pTriv mW9 dW9 ∧
    sensor_vel mW9 (sensor_vel mW9 dW9) = sensor_vel mW9 dW9 ∧
    sensor_acc mW9 (sensor_acc mW9 dW9) = sensor_acc mW9 dW9 ∧
    sensor_pos pTriv mW9 dW9 = sensor_pos pTriv mW9 dW9 ∧
    sensor_vel mW9 dW9 = sensor_vel mW9 dW9 ∧
    sensor_acc mW9 dW9 = sensor_acc mW9 dW9 :=
  c9_idempotent_deterministic pTriv mW9 dW9 dW9 pTriv_rayPure rfl

/-- C2 counterexample: in `mC2`, sensor 1 has type `JOINTPOS` but needs the
velocity stage; because `sensor_pos` forms each group by type alone
(`m.sensor_type == sensor_type`, without re-filtering by needed stage), the
position stage still evaluates sensor 1 and writes its address. -/
theorem c2_counterexample :
    mC2.sstage 1 = Stage.VEL ∧ mC2.sstage 1 ≠ Stage.POS ∧
    (sensor_pos pTriv mC2 dC2).sensordata.getD 1 0 ≠ dC2.sensordata.getD 1 0 := by
  exact ⟨rfl, by decide, by decide⟩

/-- C2 amended: the group evaluated for a sensor type consists of ALL sensor
indices with that type (`typeIdx`), whether or not their own needed stage
matches; the types iterated are those with at least one sensor needing the
invoked stage, so (given disjoint address ranges) a sensor is guaranteed
neither evaluated nor written only when its TYPE is absent from the invoked
stage's type set, not merely when its own needed stage differs. -/
theorem c2_amended_group_by_type (p : Prims) (m : Model) (d : Data) (i k : Nat)
    (hk : k < sensorWidth (m.stype i))
    (hdj : ∀ j, j < nsensor m → j ≠ i → ∀ k2, k2 < sensorWidth (m.stype j) →
      m.sadr j + k2 ≠ m.sadr i + k) :
    (∀ t : SensorType, ∀ j : Nat, j ∈ typeIdx m t ↔ j < nsensor m ∧ m.stype j = t) ∧
    (m.stype i ∉ stageTypes m Stage.POS →
      (sensor_pos p m d).sensordata.getD (m.sadr i + k) 0
        = d.sensordata.getD (m.sadr i + k) 0) ∧
    (m.stype i ∉ stageTypes m Stage.VEL →
      (sensor_vel m d).sensordata.getD (m.sadr i + k) 0
        = d.sensordata.getD (m.sadr i + k) 0) ∧
    (m.stype i ∉ stageTypes m Stage.ACC →
      (sensor_acc m d).sensordata.getD (m.sadr i + k) 0
        = d.sensordata.getD (m.sadr i + k) 0) := by
  refine ⟨fun t j => mem_typeIdx, ?_, ?_, ?_⟩
  · intro hnot
    apply sensor_pos_getD_of_uncovered
    intro j hj hjt k2 hk2
    by_cases hji : j = i
    · subst hji
      exact absurd hjt hnot
    · exact hdj j hj hji k2 hk2
  · intro hnot
    apply sensor_vel_getD_of_uncovered
    intro j hj hjt k2 hk2
    by_cases hji : j = i
    · subst hji
      exact absurd hjt hnot
    · exact hdj j hj hji k2 hk2
  · intro hnot
    apply sensor_acc_getD_of_uncovered
    intro j hj hjt k2 hk2
    by_cases hji : j = i
    · subst hji
      exact absurd hjt hnot
    · exact hdj j hj hji k2 hk2

theorem c2_witness :
    (sensor_vel mW9 dW9).sensordata.getD (mW9.sadr 0 + 0) 0
      = dW9.sensordata.getD (mW9.sadr 0 + 0) 0 :=
  (c2_amended_group_by_type pTriv mW9 dW9 0 0 (by decide) (by decide)).2.2.1
    (by decide)

/-- C8 counterexample: address 1 of the sensor buffer lies outside the
address range of every sensor of `mC2` whose needed stage is the position
stage, yet `sensor_pos` changes it (sensor 1 needs the velocity stage but
shares the `JOINTPOS` type with position-stage sensor 0). -/
theorem c8_counterexample :
    (∀ j, j < nsensor mC2 → mC2.sstage j = Stage.POS →
      ∀ k, k < sensorWidth (mC2.stype j) → mC2.sadr j + k ≠ 1) ∧
    (sensor_pos pTriv mC2 dC2).sensordata.getD 1 0 ≠ dC2.sensordata.getD 1 0 :=
  ⟨by decide, by decide⟩

/-- C8 amended: each stage function returns a `Data` differing from its
input only in `sensordata` (every other field is preserved, expressed as a
record-update equality), and within `sensordata` only at addresses covered
by a sensor whose TYPE belongs to the invoked stage's evaluated type set
AND is implemented by the invoked stage's dispatch chain (rather than:
whose own needed stage equals the invoked stage, which the code does not
guarantee); every address not so covered — including the range of an
unimplemented-type sensor that needs the stage — keeps its value. -/
theorem c8_frame_effect (p : Prims) (m : Model) (d : Data) :
    sensor_pos p m d = { d with sensordata := (sensor_pos p m d).sensordata } ∧
    sensor_vel m d = { d with sensordata := (sensor_vel m d).sensordata } ∧
    sensor_acc m d = { d with sensordata := (sensor_acc m d).sensordata } ∧
    (∀ a, (∀ j, j < nsensor m → m.stype j ∈ stageTypes m Stage.POS →
        posHandled (m.stype j) = true →
        ∀ k, k < sensorWidth (m.stype j) → m.sadr j + k ≠ a) →
      (sensor_pos p m d).sensordata.getD a 0 = d.sensordata.getD a 0) ∧
    (∀ a, (∀ j, j < nsensor m → m.stype j ∈ stageTypes m Stage.VEL →
        velHandled (m.stype j) = true →
        ∀ k, k < sensorWidth (m.stype j) → m.sadr j + k ≠ a) →
      (sensor_vel m d).sensordata.getD a 0 = d.sensordata.getD a 0) ∧
    (∀ a, (∀ j, j < nsensor m → m.stype j ∈ stageTypes m Stage.ACC →
        accHandled (m.stype j) = true →
        ∀ k, k < sensorWidth (m.stype j) → m.sadr j + k ≠ a) →
      (sensor_acc m d).sensordata.getD a 0 = d.sensordata.getD a 0) := by
  refine ⟨sensor_pos_frame p m d, sensor_vel_frame m d, sensor_acc_frame m d,
    ?_, ?_, ?_⟩
  · intro a h
    apply sensor_pos_getD_of_nowrite
    intro j hj hjt pr hpr hpra
    by_cases hh : posHandled (m.stype j) = true
    · obtain ⟨h1, h2⟩ := sensorPairs_addr p m d j pr hpr
      exact h j hj hjt hh (pr.1 - m.sadr j) (by omega) (by omega)
    · rw [Bool.not_eq_true] at hh
      rw [sensorPairs_nil_of_unhandled p m d j hh] at hpr
      exact absurd hpr (List.not_mem_nil pr)
  · intro a h
    apply sensor_vel_getD_of_nowrite
    intro j hj hjt pr hpr hpra
    by_cases hh : velHandled (m.stype j) = true
    · obtain ⟨h1, h2⟩ := velSensorPairs_addr m d j pr hpr
      exact h j hj hjt hh (pr.1 - m.sadr j) (by omega) (by omega)
    · rw [Bool.not_eq_true] at hh
      rw [velSensorPairs_nil_of_unhandled m d j hh] at hpr
      exact absurd hpr (List.not_mem_nil pr)
  · intro a h
    apply sensor_acc_getD_of_nowrite
    intro j hj hjt pr hpr hpra
    by_cases hh : accHandled (m.stype j) = true
    · obtain ⟨h1, h2⟩ := accSensorPairs_addr m d j pr hpr
      exact h j hj hjt hh (pr.1 - m.sadr j) (by omega) (by omega)
    · rw [Bool.not_eq_true] at hh
      rw [accSensorPairs_nil_of_unhandled m d j hh] at hpr
      exact absurd hpr (List.not_mem_nil pr)

theorem c8_witness :
    (sensor_pos pTriv mW9 dW9).sensordata.getD 5 0 = dW9.sensordata.getD 5 0 :=
  (c8_frame_effect pTriv mW9 dW9).2.2.2.1 5 (by decide)

/-- C5: a sensor whose type tag is not among the types implemented by the
invoked stage is silently skipped: given disjoint sensor address ranges (a
model-compilation invariant), no position of the output buffer belonging to
that sensor is written by that stage function; the stage functions are total
Lean functions, so no error is raised for any type tag. -/
theorem c5_unsupported_skipped (p : Prims) (m : Model) (d : Data) (i k : Nat)
    (hi : i < nsensor m) (hk : k < sensorWidth (m.stype i))
    (hdj : ∀ j, j < nsensor m → j ≠ i → ∀ k2, k2 < sensorWidth (m.stype j) →
      m.sadr j + k2 ≠ m.sadr i + k) :
    (posHandled (m.stype i) = false →
      (sensor_pos p m d).sensordata.getD (m.sadr i + k) 0
        = d.sensordata.getD (m.sadr i + k) 0) ∧
    (velHandled (m.stype i) = false →
      (sensor_vel m d).sensordata.getD (m.sadr i + k) 0
        = d.sensordata.getD (m.sadr i + k) 0) ∧
    (accHandled (m.stype i) = false →
      (sensor_acc m d).sensordata.getD (m.sadr i + k) 0
        = d.sensordata.getD (m.sadr i + k) 0) := by
  refine ⟨?_, ?_, ?_⟩
  · intro hun
    apply sensor_pos_getD_of_nowrite
    intro j hj hjt pr hpr
    by_cases hji : j = i
    · subst hji
      rw [sensorPairs_nil_of_unhandled p m d j hun] at hpr
      exact absurd hpr (List.not_mem_nil pr)
    · intro hpra
      obtain ⟨h1, h2⟩ := sensorPairs_addr p m d j pr hpr
      exact hdj j hj hji (pr.1 - m.sadr j) (by omega) (by omega)
  · intro hun
    apply sensor_vel_getD_of_nowrite
    intro j hj hjt pr hpr
    by_cases hji : j = i
    · subst hji
      rw [velSensorPairs_nil_of_unhandled m d j hun] at hpr
      exact absurd hpr (List.not_mem_nil pr)
    · intro hpra
      obtain ⟨h1, h2⟩ := velSensorPairs_addr m d j pr hpr
      exact hdj j hj hji (pr.1 - m.sadr j) (by omega) (by omega)
  · intro hun
    apply sensor_acc_getD_of_nowrite
    intro j hj hjt pr hpr
    by_cases hji : j = i
    · subst hji
      rw [accSensorPairs_nil_of_unhandled m d j hun] at hpr
      exact absurd hpr (List.not_mem_nil pr)
    · intro hpra
      obtain ⟨h1, h2⟩ := accSensorPairs_addr m d j pr hpr
      exact hdj j hj hji (pr.1 - m.sadr j) (by omega) (by omega)

theorem c5_witness :
    (sensor_pos pTriv mC5 dC5).sensordata.getD (mC5.sadr 0 + 0) 0
      = dC5.sensordata.getD (mC5.sadr 0 + 0) 0 :=
  (c5_unsupported_skipped pTriv mC5 dC5 0 0 (by decide) (by decide)
    (by decide)).1 (by decide)

/-- C1: the claim fails on the code. The `objtype_data` dict's world
(`UNKNOWN`) entry is stored swapped — identity matrices where the positions
belong and the zero position where the matrices belong — so a frame-position
sensor whose reference type is world/`UNKNOWN` with a NONNEGATIVE reference
id gathers `p_ref = eye(3)` and `R_ref = zeros(3)` and computes
`zeros @ (p - eye)`: the zero vector is written instead of the claimed
`R_refᵀ(p - p_ref) = p`.  With the sentinel reference id `-1` the swapped
entries are discarded by the `where` and the raw world position is written
as the claim states (last conjunct). -/
theorem c1_world_entry_swapped :
    objtype_data dC1b ObjType.UNKNOWN
      = ([NpVal.mat Mat3.id], [NpVal.vec ⟨0, 0, 0⟩]) ∧
    mC1b.srefid 0 = 0 ∧
    dC1b.xpos.getD 0 default = ⟨1, 2, 3⟩ ∧
    (sensor_pos pTriv mC1b dC1b).sensordata = [0, 0, 0] ∧
    (sensor_pos pTriv mC1b dC1b).sensordata.getD 0 0
      ≠ (dC1b.xpos.getD 0 default).x ∧
    (sensor_pos pTriv mC1 dC1).sensordata = [1, 2, 3] := by
  have hv : frameposValue mC1b dC1b 0 = NpVal.vec ⟨0, 0, 0⟩ := by
    norm_num [frameposValue, _framepos, npMatmul, npT, npSub, objtype_data,
      getINp, wrapIdx, Model.sobjtype, Model.sreftype, Model.srefid,
      Model.sobjid, mC1b, dC1b, Mat3.id, Mat3.transpose, Mat3.mulVec,
      Vec3.dot, Vec3.sub, List.getD]
  have hw : posWrites pTriv mC1b dC1b = [(0, 0), (1, 0), (2, 0)] := by
    have hshape : posWrites pTriv mC1b dC1b
        = ((frameposPairs mC1b dC1b 0 ++ []) ++ []) ++ [] := rfl
    rw [hshape]
    simp only [List.append_nil]
    unfold frameposPairs
    rw [hv]
    rfl
  have hd0 : (sensor_pos pTriv mC1b dC1b).sensordata = [0, 0, 0] := by
    rw [sensor_pos, if_neg (by decide), if_neg (by rw [hw]; decide)]
    show scatter dC1b.sensordata (posWrites pTriv mC1b dC1b) = [0, 0, 0]
    rw [hw]
    decide
  refine ⟨rfl, rfl, rfl, hd0, ?_, ?_⟩
  · rw [hd0]
    decide
  · decide

/-- C3: for a position-stage frame-quaternion sensor `i` (sensors enabled,
addresses in range, address ranges disjoint), `sensor_pos` resolves the
object quaternion `q` and reference quaternion `q_ref` with the
per-object-type rule `_quat` (world/none: identity; extended body: the
stored body quaternion; body, geom, site, camera: the owning body's
quaternion composed with the object's local quaternion offset) and writes
into the sensor's 4-wide address range `q` when the reference id is `-1`,
else `inverse(q_ref)` composed with `q`. -/
theorem c3_framequat (p : Prims) (m : Model) (d : Data) (i : Nat)
    (hdis : m.opt.disableflags &&& mjDSBL_SENSOR = 0)
    (hi : i < nsensor m) (hns : i < m.sensor_needstage.length)
    (ht : m.stype i = SensorType.FRAMEQUAT)
    (hst : m.sstage i = Stage.POS)
    (hlen : m.sadr i + 3 < d.sensordata.length)
    (hdj : ∀ j, j < nsensor m → j ≠ i → ∀ k2, k2 < sensorWidth (m.stype j) →
      ∀ k, k < 4 → m.sadr j + k2 ≠ m.sadr i + k) :
    ((sensor_pos p m d).sensordata.getD (m.sadr i) 0 = (framequatValue m d i).w ∧
     (sensor_pos p m d).sensordata.getD (m.sadr i + 1) 0 = (framequatValue m d i).x ∧
     (sensor_pos p m d).sensordata.getD (m.sadr i + 2) 0 = (framequatValue m d i).y ∧
     (sensor_pos p m d).sensordata.getD (m.sadr i + 3) 0 = (framequatValue m d i).z) ∧
    ((∀ oid, _quat m d ObjType.UNKNOWN oid = ⟨1, 0, 0, 0⟩) ∧
     (∀ oid, _quat m d ObjType.XBODY oid = getIQt d.xquat oid) ∧
     (∀ oid, _quat m d ObjType.BODY oid
        = quat_mul (getIQt d.xquat oid) (getIQt m.body_iquat oid)) ∧
     (∀ oid, _quat m d ObjType.GEOM oid
        = quat_mul (getIQt d.xquat (getIN m.geom_bodyid oid : Int))
            (getIQt m.geom_quat oid)) ∧
     (∀ oid, _quat m d ObjType.SITE oid
        = quat_mul (getIQt d.xquat (getIN m.site_bodyid oid : Int))
            (getIQt m.site_quat oid)) ∧
     (∀ oid, _quat m d ObjType.CAMERA oid
        = quat_mul (getIQt d.xquat (getIN m.cam_bodyid oid : Int))
            (getIQt m.cam_quat oid))) ∧
    (m.srefid i = -1 →
      framequatValue m d i = _quat m d (m.sobjtype i) (m.sobjid i : Int)) ∧
    (m.srefid i ≠ -1 →
      framequatValue m d i
        = quat_mul (quat_inv (_quat m d (m.sreftype i) (m.srefid i)))
            (_quat m d (m.sobjtype i) (m.sobjid i : Int))) := by
  have hit : m.stype i ∈ stageTypes m Stage.POS :=
    mem_stageTypes.mpr ⟨i, hi, hns, rfl, hst⟩
  have hpairs : sensorPairs p m d i
      = quatWrites (m.sadr i) (framequatValue m d i) := by
    unfold sensorPairs
    rw [ht]
    rfl
  refine ⟨⟨?_, ?_, ?_, ?_⟩,
    ⟨fun oid => rfl, fun oid => rfl, fun oid => rfl, fun oid => rfl,
     fun oid => rfl, fun oid => rfl⟩, ?_, ?_⟩
  · apply sensor_pos_getD_of_pair p m d i (m.sadr i) _ hdis hi hit
    · rw [hpairs]
      exact List.mem_cons_self _ _
    · intro j hj hjt hji k2 hk2
      have h2 := hdj j hj hji k2 hk2 0 (by omega)
      simpa using h2
    · intro pr hpr hpra
      rw [hpairs] at hpr
      exact quatWrites_self_w _ _ pr hpr hpra
    · omega
  · apply sensor_pos_getD_of_pair p m d i (m.sadr i + 1) _ hdis hi hit
    · rw [hpairs]
      exact List.mem_cons_of_mem _ (List.mem_cons_self _ _)
    · intro j hj hjt hji k2 hk2
      exact hdj j hj hji k2 hk2 1 (by omega)
    · intro pr hpr hpra
      rw [hpairs] at hpr
      exact quatWrites_self_x _ _ pr hpr hpra
    · omega
  · apply sensor_pos_getD_of_pair p m d i (m.sadr i + 2) _ hdis hi hit
    · rw [hpairs]
      exact List.mem_cons_of_mem _ (List.mem_cons_of_mem _ (List.mem_cons_self _ _))
    · intro j hj hjt hji k2 hk2
      exact hdj j hj hji k2 hk2 2 (by omega)
    · intro pr hpr hpra
      rw [hpairs] at hpr
      exact quatWrites_self_y _ _ pr hpr hpra
    · omega
  · apply sensor_pos_getD_of_pair p m d i (m.sadr i + 3) _ hdis hi hit
    · rw [hpairs]
      exact List.mem_cons_of_mem _
        (List.mem_cons_of_mem _ (List.mem_cons_of_mem _ (List.mem_cons_self _ _)))
    · intro j hj hjt hji k2 hk2
      exact hdj j hj hji k2 hk2 3 (by omega)
    · intro pr hpr hpra
      rw [hpairs] at hpr
      exact quatWrites_self_z _ _ pr hpr hpra
    · omega
  · intro h
    unfold framequatValue
    rw [if_pos h]
  · intro h
    unfold framequatValue
    rw [if_neg h]

theorem c3_witness :
    ((sensor_pos pTriv mC3 dC3).sensordata.getD (mC3.sadr 0) 0
        = (framequatValue mC3 dC3 0).w ∧
     (sensor_pos pTriv mC3 dC3).sensordata.getD (mC3.sadr 0 + 1) 0
        = (framequatValue mC3 dC3 0).x ∧
     (sensor_pos pTriv mC3 dC3).sensordata.getD (mC3.sadr 0 + 2) 0
        = (framequatValue mC3 dC3 0).y ∧
     (sensor_pos pTriv mC3 dC3).sensordata.getD (mC3.sadr 0 + 3) 0
        = (framequatValue mC3 dC3 0).z) ∧
    ((∀ oid, _quat mC3 dC3 ObjType.UNKNOWN oid = ⟨1, 0, 0, 0⟩) ∧
     (∀ oid, _quat mC3 dC3 ObjType.XBODY oid = getIQt dC3.xquat oid) ∧
     (∀ oid, _quat mC3 dC3 ObjType.BODY oid
        = quat_mul (getIQt dC3.xquat oid) (getIQt mC3.body_iquat oid)) ∧
     (∀ oid, _quat mC3 dC3 ObjType.GEOM oid
        = quat_mul (getIQt dC3.xquat (getIN mC3.geom_bodyid oid : Int))
            (getIQt mC3.geom_quat oid)) ∧
     (∀ oid, _quat mC3 dC3 ObjType.SITE oid
        = quat_mul (getIQt dC3.xquat (getIN mC3.site_bodyid oid : Int))
            (getIQt mC3.site_quat oid)) ∧
     (∀ oid, _quat mC3 dC3 ObjType.CAMERA oid
        = quat_mul (getIQt dC3.xquat (getIN mC3.cam_bodyid oid : Int))
            (getIQt mC3.cam_quat oid))) ∧
    (mC3.srefid 0 = -1 →
      framequatValue mC3 dC3 0 = _quat mC3 dC3 (mC3.sobjtype 0) (mC3.sobjid 0 : Int)) ∧
    (mC3.srefid 0 ≠ -1 →
      framequatValue mC3 dC3 0
        = quat_mul (quat_inv (_quat mC3 dC3 (mC3.sreftype 0) (mC3.srefid 0)))
            (_quat mC3 dC3 (mC3.sobjtype 0) (mC3.sobjid 0 : Int))) :=
  c3_framequat pTriv mC3 dC3 0 (by decide) (by decide) (by decide) rfl rfl
    (by decide) (by decide)

/-- C6: for a position-stage camera-projection sensor `i` whose target site
lies exactly on the reference camera's optical axis at positive depth
(sensors enabled, addresses in range, address ranges disjoint), the two
values `sensor_pos` writes are the image-center pixel coordinates: half the
horizontal and half the vertical resolution, with no offset, for any focal
parameters. -/
theorem c6_camproject_center (p : Prims) (m : Model) (d : Data) (i : Nat)
    (depth : ℚ)
    (hdis : m.opt.disableflags &&& mjDSBL_SENSOR = 0)
    (hi : i < nsensor m) (hns : i < m.sensor_needstage.length)
    (ht : m.stype i = SensorType.CAMPROJECTION)
    (hst : m.sstage i = Stage.POS)
    (hlen : m.sadr i + 1 < d.sensordata.length)
    (hdj : ∀ j, j < nsensor m → j ≠ i → ∀ k2, k2 < sensorWidth (m.stype j) →
      ∀ k, k < 2 → m.sadr j + k2 ≠ m.sadr i + k)
    (hc : (getIM d.cam_xmat (m.srefid i)).transpose.mulVec
        ((d.site_xpos.getD (m.sobjid i) default).sub
          (getIV d.cam_xpos (m.srefid i))) = ⟨0, 0, depth⟩)
    (hd : 0 < depth) :
    (sensor_pos p m d).sensordata.getD (m.sadr i) 0
        = (getIP m.cam_resolution (m.srefid i)).1 / 2 ∧
    (sensor_pos p m d).sensordata.getD (m.sadr i + 1) 0
        = (getIP m.cam_resolution (m.srefid i)).2 / 2 := by
  have hit : m.stype i ∈ stageTypes m Stage.POS :=
    mem_stageTypes.mpr ⟨i, hi, hns, rfl, hst⟩
  have hs := cam_project_center p (d.site_xpos.getD (m.sobjid i) default)
      (getIV d.cam_xpos (m.srefid i)) (getIM d.cam_xmat (m.srefid i))
      (getIP m.cam_resolution (m.srefid i)) (getIR m.cam_fovy (m.srefid i))
      (getIP m.cam_intrinsic (m.srefid i)) (getIP m.cam_sensorsize (m.srefid i))
      (decide ((getIP m.cam_sensorsize (m.srefid i)).1 ≠ 0)
        && decide ((getIP m.cam_sensorsize (m.srefid i)).2 ≠ 0)) depth hc hd
  have hpairs : sensorPairs p m d i
      = [(m.sadr i, (getIP m.cam_resolution (m.srefid i)).1 / 2),
         (m.sadr i + 1, (getIP m.cam_resolution (m.srefid i)).2 / 2)] := by
    unfold sensorPairs
    rw [ht]
    show camprojPairs p m d i = _
    simp only [camprojPairs]
    rw [hs]
  constructor
  · apply sensor_pos_getD_of_pair p m d i (m.sadr i) _ hdis hi hit
    · rw [hpairs]
      exact List.mem_cons_self _ _
    · intro j hj hjt hji k2 hk2
      have h2 := hdj j hj hji k2 hk2 0 (by omega)
      simpa using h2
    · intro pr hpr hpra
      rw [hpairs] at hpr
      exact camWrites_self_fst _ _ _ pr hpr hpra
    · omega
  · apply sensor_pos_getD_of_pair p m d i (m.sadr i + 1) _ hdis hi hit
    · rw [hpairs]
      exact List.mem_cons_of_mem _ (List.mem_cons_self _ _)
    · intro j hj hjt hji k2 hk2
      exact hdj j hj hji k2 hk2 1 (by omega)
    · intro pr hpr hpra
      rw [hpairs] at hpr
      exact camWrites_self_snd _ _ _ pr hpr hpra
    · omega

theorem c6_witness :
    (sensor_pos pTriv mC6 dC6).sensordata.getD (mC6.sadr 0) 0
        = (getIP mC6.cam_resolution (mC6.srefid 0)).1 / 2 ∧
    (sensor_pos pTriv mC6 dC6).sensordata.getD (mC6.sadr 0 + 1) 0
        = (getIP mC6.cam_resolution (mC6.srefid 0)).2 / 2 :=
  c6_camproject_center pTriv mC6 dC6 0 1 (by decide) (by decide) (by decide)
    rfl rfl (by decide) (by decide)
    (by norm_num [mC6, dC6, Model.srefid, Model.sobjid, getIM, getIV, wrapIdx,
      Mat3.id, Mat3.transpose, Mat3.mulVec, Vec3.dot, Vec3.sub, Vec3.mk.injEq])
    (by norm_num)

/-- C10: the focal matrix's first diagonal entry is the negated horizontal
focal length, so a target whose camera-frame coordinates have positive first
and third components projects to a horizontal pixel coordinate strictly less
than half the horizontal resolution for positive focal lengths: the
horizontal image axis is mirrored relative to a standard pinhole model. -/
theorem c10_mirrored_horizontal (p : Prims) (target xpos : Vec3) (xmat : Mat3)
    (res : ℚ × ℚ) (fovy : ℚ) (intrinsic sensorsize : ℚ × ℚ) (ff : Bool)
    (cx cy cz : ℚ)
    (hc : xmat.transpose.mulVec (target.sub xpos) = ⟨cx, cy, cz⟩)
    (hcx : 0 < cx) (hcz : 0 < cz)
    (hfx : 0 < (focalLengths p res fovy intrinsic sensorsize ff).1)
    (hfy : 0 < (focalLengths p res fovy intrinsic sensorsize ff).2) :
    (∀ a b : ℚ, (focalMatrix a b).r0.x = -a) ∧
    (_cam_project p target xpos xmat res fovy intrinsic sensorsize ff).1
      < res.1 / 2 := by
  refine ⟨fun a b => rfl, ?_⟩
  have he := cam_project_eq p target xpos xmat res fovy intrinsic sensorsize ff
    cx cy cz hc
  have he1 : (_cam_project p target xpos xmat res fovy intrinsic sensorsize ff).1
      = (-(focalLengths p res fovy intrinsic sensorsize ff).1 * cx
          + res.1 / 2 * cz) / clampDenom cz := by
    rw [he]
  rw [he1, clampDenom_eq_self, div_lt_iff₀ hcz]
  nlinarith [mul_pos hfx hcx]

theorem c10_witness :
    (∀ a b : ℚ, (focalMatrix a b).r0.x = -a) ∧
    (_cam_project pTriv ⟨1, 0, 1⟩ ⟨0, 0, 0⟩ Mat3.id (2, 2) 30 (0, 0) (0, 0)
        false).1 < (2 : ℚ) / 2 :=
  c10_mirrored_horizontal pTriv ⟨1, 0, 1⟩ ⟨0, 0, 0⟩ Mat3.id (2, 2) 30 (0, 0)
    (0, 0) false 1 0 1
    (by norm_num [Mat3.id, Mat3.transpose, Mat3.mulVec, Vec3.dot, Vec3.sub,
      Vec3.mk.injEq])
    (by norm_num) (by norm_num)
    (by norm_num [focalLengths, pTriv])
    (by norm_num [focalLengths, pTriv])
